import Mathlib

/-!
Known-answer test driver of crypto/hash-vectest.c

A shallow embedding of `test_hash`, `test_spec` and `main` from
`src/crypto/hash-vectest.c`.  The program is a sequence of calls into external
collaborators (the hash functions, the CPU feature registry, stdio); the
embedding records every such call, in program order, as an `Event` of a trace.

Conventions:
* bytes are natural numbers below 256, buffers are lists of bytes;
* a `const char *` that is left out of a designated initialiser is the null
  pointer, modelled by `none`;
* a string literal is modelled by the bytes written in the literal (the
  terminating NUL that C appends is not stored), so a read is modelled only
  while it stays inside those bytes: statements about an arbitrary
  specification that compare against the expected digest assume
  `digest_size ≤ digest.length`, which every entry of the registry satisfies;
* `int` and `size_t` values are `Int` and `Nat`; the static tables only hold
  counts, indices and sizes far below `2^31`.
-/

namespace HashVectest

/-- The struct hash_testvec of the source: plaintext pointer, declared length,
expected digest. -/
structure hash_testvec where
  plaintext : Option (List Nat)
  psize : Nat
  digest : List Nat
  deriving DecidableEq, Repr, Inhabited

/-- The identity of the function stored in the `.hash` field.  The four hash
entry points live in crypto/hash.c, outside the sources at hand; the field is a
function pointer, so a specification only fixes which function is called. -/
inductive HashFn where
  | hash_crc32c
  | hash_xxhash
  | hash_sha256
  | hash_blake2b
  deriving DecidableEq, Repr, Inhabited

/-- The struct hash_testspec of the source.  Fields left out of an initialiser
are zero, as in C. -/
structure hash_testspec where
  name : String
  digest_size : Nat
  testvec : List hash_testvec
  count : Nat
  cpu_flag : Nat := 0
  hash : HashFn
  backend : Int := 0
  deriving DecidableEq, Repr, Inhabited

/-- Constants that the source takes from headers outside the sources at hand
(common/cpu-utils.h, crypto/hash.h and the build configuration). -/
structure Config where
  CPU_FLAG_NONE : Nat
  CPU_FLAG_SSE2 : Nat
  CPU_FLAG_SSE41 : Nat
  CPU_FLAG_SSE42 : Nat
  CPU_FLAG_SHA : Nat
  CPU_FLAG_AVX2 : Nat
  CRYPTOPROVIDER_BUILTIN : Int
  CRYPTOPROVIDER_LIBGCRYPT : Int
  CRYPTOPROVIDER_LIBSODIUM : Int
  CRYPTOPROVIDER_LIBKCAPI : Int
  CRYPTOPROVIDER : String

/-- One observable action of the program, in the order the source performs
them.  Every constructor is one call site of the source. -/
inductive Event where
  /-- The call `printf("%s skipped, no CPU support\n", spec->name)` -/
  | skipped (name : String)
  /-- The call `printf("TEST: name=%s vectors=%zd\n", spec->name, spec->count)` -/
  | header (name : String) (count : Nat)
  /-- The call `cpu_set_level(spec->cpu_flag)` -/
  | cpu_set_level (flag : Nat)
  /-- The call `hash_init_accel()` -/
  | hash_init_accel
  /-- The call `ret = spec->hash(vec->plaintext, vec->psize, csum)` made in loop
  iteration `i`; `ret` and `csum` are what the call returned and left in the
  output buffer. -/
  | hash (i : Nat) (fn : HashFn) (plaintext : Option (List Nat)) (psize : Nat)
      (ret : Int) (csum : List Nat)
  /-- The call `cpu_reset_level()` -/
  | cpu_reset_level
  /-- The call `error("hash %s = %d", spec->name, ret)` -/
  | error (name : String) (ret : Int)
  /-- The call `printf("%s vector %d: match\n", spec->name, i)` -/
  | vec_match (name : String) (i : Nat)
  /-- The call `printf("%s vector %d: MISMATCH\n", spec->name, i)` -/
  | vec_mismatch (name : String) (i : Nat)
  /-- The call `printf("  want:")` -/
  | want_label
  /-- The call `printf("  have:")` -/
  | have_label
  /-- The call `printf(" %02hhx", b)` -/
  | hex_byte (b : Nat)
  /-- The call `putchar('\n')` -/
  | newline
  /-- The call `cpu_detect_flags()` -/
  | cpu_detect_flags
  /-- The call `cpu_print_flags()` -/
  | cpu_print_flags
  /-- The call `printf("Implementation: %s\n", CRYPTOPROVIDER)` -/
  | implementation (provider : String)
  deriving DecidableEq, Repr, Inhabited

/-- The external collaborators whose answers the program branches on.
`cpu_has_feature` is the query of the detected feature set.  `hash fn hist p n`
is what a call of the function `fn` on plaintext `p` with length `n` returns
(status and contents of the output buffer) when `hist` is everything the
program did before the call; letting the answer depend on the history covers
hash functions whose result depends on the active CPU level, on the selected
accelerator or on earlier calls. -/
structure Env where
  cpu_has_feature : Nat → Bool
  hash : HashFn → List Event → Option (List Nat) → Nat → Int × List Nat

/-- The libc memcmp on two buffers: zero when the first `n` bytes agree,
otherwise the difference of the first pair of bytes that differ.  The lists
hold the bytes of the two objects without the NUL that ends a C literal, so
the function is the C comparison when both lists have at least `n` bytes; on
a list that ends earlier (where C would read the NUL and then leave the
object) it compares the list like a shorter string. -/
def memcmp : List Nat → List Nat → Nat → Int
  | _, _, 0 => 0
  | [], [], _ + 1 => 0
  | [], _ :: _, _ + 1 => -1
  | _ :: _, [], _ + 1 => 1
  | a :: as, b :: bs, n + 1 => if a = b then memcmp as bs n else (a : Int) - (b : Int)

/-- The loop `for (j = 0; j < size; j++) printf(" %02hhx", buf[j])`. -/
def print_hex (buf : List Nat) (size : Nat) : List Event :=
  (List.range size).map (fun j => Event.hex_byte (buf.getD j 0))

/-- The element `spec->testvec[i]` that the loop body points `vec` at.  The
loop runs `i` up to `spec->count`; every entry of the registry sets `count` to
`ARRAY_SIZE` of its table, so the index stays inside the table there.  An
index past the end of the table has no element in C; the embedding reads the
all-zero vector for it. -/
def hash_testspec.vec (spec : hash_testspec) (i : Nat) : hash_testvec :=
  spec.testvec.getD i default

/-- The events between the skip tests and the hash call: the header, printed
while the local `header` is still false, and the activation of the CPU level
for a specification with a non-zero `cpu_flag`. -/
def dispatch_pre (spec : hash_testspec) (header : Bool) : List Event :=
  (if header = false then [Event.header spec.name spec.count] else []) ++
  (if spec.cpu_flag ≠ 0 then
    [Event.cpu_set_level spec.cpu_flag, Event.hash_init_accel] else [])

/-- The `if (memcmp(csum, vec->digest, spec->digest_size) == 0) ... else ...`
statement that ends the loop body, for loop index `i` and output buffer
`csum`. -/
def verdict_events (spec : hash_testspec) (i : Nat) (csum : List Nat) : List Event :=
  if memcmp csum (spec.vec i).digest spec.digest_size = 0 then
    [Event.vec_match spec.name i]
  else
    [Event.vec_mismatch spec.name i, Event.want_label]
      ++ print_hex (spec.vec i).digest spec.digest_size
      ++ [Event.newline, Event.have_label]
      ++ print_hex csum spec.digest_size
      ++ [Event.newline]

/-- The value and output buffer that `spec->hash(vec->plaintext, vec->psize,
csum)` yields in iteration `i`, called after the history `hist` and the events
of `dispatch_pre`. -/
def call_result (env : Env) (spec : hash_testspec) (i : Nat) (header : Bool)
    (hist : List Event) : Int × List Nat :=
  env.hash spec.hash (hist ++ dispatch_pre spec header) (spec.vec i).plaintext (spec.vec i).psize

/-- The events of a dispatched iteration up to the test of `ret`: header and
level activation, the hash call, and cpu_reset_level. -/
def call_events (env : Env) (spec : hash_testspec) (i : Nat) (header : Bool)
    (hist : List Event) : List Event :=
  dispatch_pre spec header ++
    [Event.hash i spec.hash (spec.vec i).plaintext (spec.vec i).psize
      (call_result env spec i header hist).1 (call_result env spec i header hist).2,
     Event.cpu_reset_level]

/-- One iteration of the loop of test_hash, for loop index `i`, with the
current value of the local `header` and the history `hist` of the run so far.
Returns the events of the iteration, the new value of `header`, and
`some v` when the iteration executes `return v`. -/
def test_hash_iter (env : Env) (spec : hash_testspec) (i : Nat) (header : Bool)
    (hist : List Event) : List Event × Bool × Option Int :=
  if spec.cpu_flag ≠ 0 ∧ env.cpu_has_feature spec.cpu_flag = false then
    ([Event.skipped spec.name], header, none)
  else if spec.backend = 1 then
    ([], header, none)
  else
    let ret := (call_result env spec i header hist).1
    let csum := (call_result env spec i header hist).2
    if ret < 0 then
      (call_events env spec i header hist ++ [Event.error spec.name ret], true, some 1)
    else
      (call_events env spec i header hist ++ verdict_events spec i csum, true, none)

/-- The loop `for (i = 0; i < spec->count; i++)` of test_hash, entered at index
`i` with `n = spec->count - i` iterations left; falling out of the loop is
`return 0`. -/
def test_hash_loop (env : Env) (spec : hash_testspec) :
    Nat → Nat → Bool → List Event → List Event × Int
  | 0, _, _, _ => ([], 0)
  | n + 1, i, header, hist =>
    match test_hash_iter env spec i header hist with
    | (es, _, some v) => (es, v)
    | (es, header1, none) =>
      let r := test_hash_loop env spec n (i + 1) header1 (hist ++ es)
      (es ++ r.1, r.2)

/-- The function test_hash of the source, run after the history `hist`:
the events it performs and the value it returns. -/
def test_hash (env : Env) (spec : hash_testspec) (hist : List Event) : List Event × Int :=
  test_hash_loop env spec spec.count 0 false hist

/-- The vector table crc32c_tv of the source. -/
def crc32c_tv : List hash_testvec :=
  [
    { plaintext := none,
      psize := 0,
      digest :=
       [0x00, 0x00, 0x00, 0x00] },
    { plaintext := some
       [0x61, 0x62, 0x63, 0x64, 0x65, 0x66, 0x67],
      psize := 7,
      digest :=
       [0x41, 0xf4, 0x27, 0xe6] }
  ]

/-- The vector table xxhash64_tv of the source. -/
def xxhash64_tv : List hash_testvec :=
  [
    { plaintext := none,
      psize := 0,
      digest :=
       [0x99, 0xe9, 0xd8, 0x51, 0x37, 0xdb, 0x46, 0xef] },
    { plaintext := some
       [0x40],
      psize := 1,
      digest :=
       [0x20, 0x5c, 0x91, 0xaa, 0x88, 0xeb, 0x59, 0xd0] },
    { plaintext := some
       [0x40, 0x8b, 0xb8, 0x41, 0xe4, 0x42, 0x15, 0x2d,
        0x88, 0xc7, 0x9a, 0x09, 0x1a, 0x9b],
      psize := 14,
      digest :=
       [0xa8, 0xe8, 0x2b, 0xa9, 0x92, 0xa1, 0x37, 0x4a] },
    { plaintext := some
       [0x40, 0x8b, 0xb8, 0x41, 0xe4, 0x42, 0x15, 0x2d,
        0x88, 0xc7, 0x9a, 0x09, 0x1a, 0x9b, 0x42, 0xe0,
        0xd4, 0x38, 0xa5, 0x2a, 0x26, 0xa5, 0x19, 0x4b,
        0x57, 0x65, 0x7f, 0xad, 0xc3, 0x7d, 0xca, 0x40,
        0x31, 0x65, 0x05, 0xbb, 0x31, 0xae, 0x51, 0x11,
        0xa8, 0xc0, 0xb3, 0x28, 0x42, 0xeb, 0x3c, 0x46,
        0xc8, 0xed, 0xed, 0x0f, 0x8d, 0x0b, 0xfa, 0x6e,
        0xbc, 0xe3, 0x88, 0x53, 0xca, 0x8f, 0xc8, 0xd9,
        0x41, 0x26, 0x7a, 0x3d, 0x21, 0xdb, 0x1a, 0x3c,
        0x01, 0x1d, 0xc9, 0xe9, 0xb7, 0x3a, 0x78, 0x67,
        0x57, 0x20, 0x94, 0xf1, 0x1e, 0xfd, 0xce, 0x39,
        0x99, 0x57, 0x69, 0x39, 0xa5, 0xd0, 0x8d, 0xd9,
        0x43, 0xfe, 0x1d, 0x66, 0x04, 0x3c, 0x27, 0x6a,
        0xe1, 0x0d, 0xe7, 0xc9, 0xfa, 0xc9, 0x07, 0x56,
        0xa5, 0xb3, 0xec, 0xd9, 0x1f, 0x42, 0x65, 0x66,
        0xaa, 0xbf, 0x87, 0x9b, 0xc5, 0x41, 0x9c, 0x27,
        0x3f, 0x2f, 0xa9, 0x55, 0x93, 0x01, 0x27, 0x33,
        0x43, 0x99, 0x4d, 0x81, 0x85, 0xae, 0x82, 0x00,
        0x6c, 0xd0, 0xd1, 0xa3, 0x57, 0x18, 0x06, 0xcc,
        0xec, 0x72, 0xf7, 0x8e, 0x87, 0x2d, 0x1f, 0x5e,
        0xd7, 0x5b, 0x1f, 0x36, 0x4c, 0xfa, 0xfd, 0x18,
        0x89, 0x76, 0xd3, 0x5e, 0xb5, 0x5a, 0xc0, 0x01,
        0xd2, 0xa1, 0x9a, 0x50, 0xe6, 0x08, 0xb4, 0x76,
        0x56, 0x4f, 0x0e, 0xbc, 0x54, 0xfc, 0x67, 0xe6,
        0xb9, 0xc0, 0x28, 0x4b, 0xb5, 0xc3, 0xff, 0x79,
        0x52, 0xea, 0xa1, 0x90, 0xc3, 0xaf, 0x08, 0x70,
        0x12, 0x02, 0x0c, 0xdb, 0x94, 0x00, 0x38, 0x95,
        0xed, 0xfd, 0x08, 0xf7, 0xe8, 0x04],
      psize := 222,
      digest :=
       [0x41, 0xfc, 0xd4, 0x29, 0xfe, 0xe7, 0x85, 0x17] }
  ]

/-- The vector table sha256_tv of the source. -/
def sha256_tv : List hash_testvec :=
  [
    { plaintext := some [],
      psize := 0,
      digest :=
       [0xe3, 0xb0, 0xc4, 0x42, 0x98, 0xfc, 0x1c, 0x14,
        0x9a, 0xfb, 0xf4, 0xc8, 0x99, 0x6f, 0xb9, 0x24,
        0x27, 0xae, 0x41, 0xe4, 0x64, 0x9b, 0x93, 0x4c,
        0xa4, 0x95, 0x99, 0x1b, 0x78, 0x52, 0xb8, 0x55] },
    { plaintext := some
       [0x61, 0x62, 0x63],
      psize := 3,
      digest :=
       [0xba, 0x78, 0x16, 0xbf, 0x8f, 0x01, 0xcf, 0xea,
        0x41, 0x41, 0x40, 0xde, 0x5d, 0xae, 0x22, 0x23,
        0xb0, 0x03, 0x61, 0xa3, 0x96, 0x17, 0x7a, 0x9c,
        0xb4, 0x10, 0xff, 0x61, 0xf2, 0x00, 0x15, 0xad] },
    { plaintext := some
       [0x61, 0x62, 0x63, 0x64, 0x62, 0x63, 0x64, 0x65,
        0x63, 0x64, 0x65, 0x66, 0x64, 0x65, 0x66, 0x67,
        0x65, 0x66, 0x67, 0x68, 0x66, 0x67, 0x68, 0x69,
        0x67, 0x68, 0x69, 0x6a, 0x68, 0x69, 0x6a, 0x6b,
        0x69, 0x6a, 0x6b, 0x6c, 0x6a, 0x6b, 0x6c, 0x6d,
        0x6b, 0x6c, 0x6d, 0x6e, 0x6c, 0x6d, 0x6e, 0x6f,
        0x6d, 0x6e, 0x6f, 0x70, 0x6e, 0x6f, 0x70, 0x71],
      psize := 56,
      digest :=
       [0x24, 0x8d, 0x6a, 0x61, 0xd2, 0x06, 0x38, 0xb8,
        0xe5, 0xc0, 0x26, 0x93, 0x0c, 0x3e, 0x60, 0x39,
        0xa3, 0x3c, 0xe4, 0x59, 0x64, 0xff, 0x21, 0x67,
        0xf6, 0xec, 0xed, 0xd4, 0x19, 0xdb, 0x06, 0xc1] },
    { plaintext := some
       [0x41, 0x42, 0x43, 0x44, 0x45, 0x46, 0x47, 0x48,
        0x49, 0x4a, 0x4b, 0x4c, 0x4d, 0x4e, 0x4f, 0x50,
        0x51, 0x52, 0x53, 0x54, 0x55, 0x56, 0x57, 0x58,
        0x59, 0x5a, 0x61, 0x62, 0x63, 0x64, 0x65, 0x66,
        0x67, 0x68, 0x69, 0x6a, 0x6b, 0x6c, 0x6d, 0x6e,
        0x6f, 0x70, 0x71, 0x72, 0x73, 0x74, 0x75, 0x76,
        0x77, 0x78, 0x79, 0x7a, 0x30, 0x31, 0x32, 0x33,
        0x34, 0x35, 0x36, 0x37, 0x38, 0x39, 0x2b, 0x2d],
      psize := 64,
      digest :=
       [0xb5, 0xfe, 0xad, 0x56, 0x7d, 0xff, 0xcb, 0xa4,
        0x2c, 0x32, 0x29, 0x32, 0x19, 0xbb, 0xfb, 0xfa,
        0xd6, 0xff, 0x94, 0xa3, 0x72, 0x91, 0x85, 0x66,
        0x3b, 0xa7, 0x87, 0x77, 0x58, 0xa3, 0x40, 0x3a] },
    { plaintext := some
       [0x08, 0x9f, 0x13, 0xaa, 0x41, 0xd8, 0x4c, 0xe3,
        0x7a, 0x11, 0x85, 0x1c, 0xb3, 0x27, 0xbe, 0x55,
        0xec, 0x60, 0xf7, 0x8e, 0x02, 0x99, 0x30, 0xc7,
        0x3b, 0xd2, 0x69, 0x00, 0x74, 0x0b, 0xa2, 0x16,
        0xad, 0x44, 0xdb, 0x4f, 0xe6, 0x7d, 0x14, 0x88,
        0x1f, 0xb6, 0x2a, 0xc1, 0x58, 0xef, 0x63, 0xfa,
        0x91, 0x05, 0x9c, 0x33, 0xca, 0x3e, 0xd5, 0x6c,
        0x03, 0x77, 0x0e, 0xa5, 0x19, 0xb0, 0x47, 0xde,
        0x52, 0xe9, 0x80, 0x17, 0x8b, 0x22, 0xb9, 0x2d,
        0xc4, 0x5b, 0xf2, 0x66, 0xfd, 0x94, 0x08, 0x9f,
        0x36, 0xcd, 0x41, 0xd8, 0x6f, 0x06, 0x7a, 0x11,
        0xa8, 0x1c, 0xb3, 0x4a, 0xe1, 0x55, 0xec, 0x83,
        0x1a, 0x8e, 0x25, 0xbc, 0x30, 0xc7, 0x5e, 0xf5,
        0x69, 0x00, 0x97, 0x0b, 0xa2, 0x39, 0xd0, 0x44,
        0xdb, 0x72, 0x09, 0x7d, 0x14, 0xab, 0x1f, 0xb6,
        0x4d, 0xe4, 0x58, 0xef, 0x86, 0x1d, 0x91, 0x28,
        0xbf, 0x33, 0xca, 0x61, 0xf8, 0x6c, 0x03, 0x9a,
        0x0e, 0xa5, 0x3c, 0xd3, 0x47, 0xde, 0x75, 0x0c,
        0x80, 0x17, 0xae, 0x22, 0xb9, 0x50, 0xe7, 0x5b,
        0xf2, 0x89, 0x20, 0x94, 0x2b, 0xc2, 0x36, 0xcd,
        0x64, 0xfb, 0x6f, 0x06, 0x9d, 0x11, 0xa8, 0x3f,
        0xd6, 0x4a, 0xe1, 0x78, 0x0f, 0x83, 0x1a, 0xb1,
        0x25, 0xbc, 0x53, 0xea, 0x5e, 0xf5, 0x8c, 0x00,
        0x97, 0x2e, 0xc5, 0x39, 0xd0, 0x67, 0xfe, 0x72,
        0x09, 0xa0, 0x14, 0xab, 0x42, 0xd9, 0x4d, 0xe4,
        0x7b, 0x12, 0x86, 0x1d, 0xb4, 0x28, 0xbf, 0x56,
        0xed, 0x61, 0xf8, 0x8f, 0x03, 0x9a, 0x31, 0xc8,
        0x3c, 0xd3, 0x6a, 0x01, 0x75, 0x0c, 0xa3, 0x17,
        0xae, 0x45, 0xdc, 0x50, 0xe7, 0x7e, 0x15, 0x89,
        0x20, 0xb7, 0x2b, 0xc2, 0x59, 0xf0, 0x64, 0xfb,
        0x92, 0x06, 0x9d, 0x34, 0xcb, 0x3f, 0xd6, 0x6d,
        0x04, 0x78, 0x0f, 0xa6, 0x1a, 0xb1, 0x48, 0xdf,
        0x53, 0xea, 0x81, 0x18, 0x8c, 0x23, 0xba, 0x2e,
        0xc5, 0x5c, 0xf3, 0x67, 0xfe, 0x95, 0x09, 0xa0,
        0x37, 0xce, 0x42, 0xd9, 0x70, 0x07, 0x7b, 0x12,
        0xa9, 0x1d, 0xb4, 0x4b, 0xe2, 0x56, 0xed, 0x84,
        0x1b, 0x8f, 0x26, 0xbd, 0x31, 0xc8, 0x5f, 0xf6,
        0x6a, 0x01, 0x98, 0x0c, 0xa3, 0x3a, 0xd1, 0x45,
        0xdc, 0x73, 0x0a, 0x7e, 0x15, 0xac, 0x20, 0xb7,
        0x4e, 0xe5, 0x59, 0xf0, 0x87, 0x1e, 0x92, 0x29,
        0xc0, 0x34, 0xcb, 0x62, 0xf9, 0x6d, 0x04, 0x9b,
        0x0f, 0xa6, 0x3d, 0xd4, 0x48, 0xdf, 0x76, 0x0d,
        0x81, 0x18, 0xaf, 0x23, 0xba, 0x51, 0xe8, 0x5c,
        0xf3, 0x8a, 0x21, 0x95, 0x2c, 0xc3, 0x37, 0xce,
        0x65, 0xfc, 0x70, 0x07, 0x9e, 0x12, 0xa9, 0x40,
        0xd7, 0x4b, 0xe2, 0x79, 0x10, 0x84, 0x1b, 0xb2,
        0x26, 0xbd, 0x54, 0xeb, 0x5f, 0xf6, 0x8d, 0x01,
        0x98, 0x2f, 0xc6, 0x3a, 0xd1, 0x68, 0xff, 0x73,
        0x0a, 0xa1, 0x15, 0xac, 0x43, 0xda, 0x4e, 0xe5,
        0x7c, 0x13, 0x87, 0x1e, 0xb5, 0x29, 0xc0, 0x57,
        0xee, 0x62, 0xf9, 0x90, 0x04, 0x9b, 0x32, 0xc9,
        0x3d, 0xd4, 0x6b, 0x02, 0x76, 0x0d, 0xa4, 0x18,
        0xaf, 0x46, 0xdd, 0x51, 0xe8, 0x7f, 0x16, 0x8a,
        0x21, 0xb8, 0x2c, 0xc3, 0x5a, 0xf1, 0x65, 0xfc,
        0x93, 0x07, 0x9e, 0x35, 0xcc, 0x40, 0xd7, 0x6e,
        0x05, 0x79, 0x10, 0xa7, 0x1b, 0xb2, 0x49, 0xe0,
        0x54, 0xeb, 0x82, 0x19, 0x8d, 0x24, 0xbb, 0x2f,
        0xc6, 0x5d, 0xf4, 0x68, 0xff, 0x96, 0x0a, 0xa1,
        0x38, 0xcf, 0x43, 0xda, 0x71, 0x08, 0x7c, 0x13,
        0xaa, 0x1e, 0xb5, 0x4c, 0xe3, 0x57, 0xee, 0x85,
        0x1c, 0x90, 0x27, 0xbe, 0x32, 0xc9, 0x60, 0xf7,
        0x6b, 0x02, 0x99, 0x0d, 0xa4, 0x3b, 0xd2, 0x46,
        0xdd, 0x74, 0x0b, 0x7f, 0x16, 0xad, 0x21, 0xb8,
        0x4f, 0xe6, 0x5a, 0xf1, 0x88, 0x1f, 0x93, 0x2a,
        0xc1, 0x35, 0xcc, 0x63, 0xfa, 0x6e, 0x05, 0x9c,
        0x10, 0xa7, 0x3e, 0xd5, 0x49, 0xe0, 0x77, 0x0e,
        0x82, 0x19, 0xb0, 0x24, 0xbb, 0x52, 0xe9, 0x5d,
        0xf4, 0x8b, 0x22, 0x96, 0x2d, 0xc4, 0x38, 0xcf,
        0x66, 0xfd, 0x71, 0x08, 0x9f, 0x13, 0xaa, 0x41,
        0xd8, 0x4c, 0xe3, 0x7a, 0x11, 0x85, 0x1c, 0xb3,
        0x27, 0xbe, 0x55, 0xec, 0x60, 0xf7, 0x8e, 0x02,
        0x99, 0x30, 0xc7, 0x3b, 0xd2, 0x69, 0x00, 0x74,
        0x0b, 0xa2, 0x16, 0xad, 0x44, 0xdb, 0x4f, 0xe6,
        0x7d, 0x14, 0x88, 0x1f, 0xb6, 0x2a, 0xc1, 0x58,
        0xef, 0x63, 0xfa, 0x91, 0x05, 0x9c, 0x33, 0xca,
        0x3e, 0xd5, 0x6c, 0x03, 0x77, 0x0e, 0xa5, 0x19,
        0xb0, 0x47, 0xde, 0x52, 0xe9, 0x80, 0x17, 0x8b,
        0x22, 0xb9, 0x2d, 0xc4, 0x5b, 0xf2, 0x66, 0xfd,
        0x94, 0x08, 0x9f, 0x36, 0xcd, 0x41, 0xd8, 0x6f,
        0x06, 0x7a, 0x11, 0xa8, 0x1c, 0xb3, 0x4a, 0xe1,
        0x55, 0xec, 0x83, 0x1a, 0x8e, 0x25, 0xbc, 0x30,
        0xc7, 0x5e, 0xf5, 0x69, 0x00, 0x97, 0x0b, 0xa2,
        0x39, 0xd0, 0x44, 0xdb, 0x72, 0x09, 0x7d, 0x14,
        0xab, 0x1f, 0xb6, 0x4d, 0xe4, 0x58, 0xef, 0x86,
        0x1d, 0x91, 0x28, 0xbf, 0x33, 0xca, 0x61, 0xf8,
        0x6c, 0x03, 0x9a, 0x0e, 0xa5, 0x3c, 0xd3, 0x47,
        0xde, 0x75, 0x0c, 0x80, 0x17, 0xae, 0x22, 0xb9,
        0x50, 0xe7, 0x5b, 0xf2, 0x89, 0x20, 0x94, 0x2b,
        0xc2, 0x36, 0xcd, 0x64, 0xfb, 0x6f, 0x06, 0x9d,
        0x11, 0xa8, 0x3f, 0xd6, 0x4a, 0xe1, 0x78, 0x0f,
        0x83, 0x1a, 0xb1, 0x25, 0xbc, 0x53, 0xea, 0x5e,
        0xf5, 0x8c, 0x00, 0x97, 0x2e, 0xc5, 0x39, 0xd0,
        0x67, 0xfe, 0x72, 0x09, 0xa0, 0x14, 0xab, 0x42,
        0xd9, 0x4d, 0xe4, 0x7b, 0x12, 0x86, 0x1d, 0xb4,
        0x28, 0xbf, 0x56, 0xed, 0x61, 0xf8, 0x8f, 0x03,
        0x9a, 0x31, 0xc8, 0x3c, 0xd3, 0x6a, 0x01, 0x75,
        0x0c, 0xa3, 0x17, 0xae, 0x45, 0xdc, 0x50, 0xe7,
        0x7e, 0x15, 0x89, 0x20, 0xb7, 0x2b, 0xc2, 0x59,
        0xf0, 0x64, 0xfb, 0x92, 0x06, 0x9d, 0x34, 0xcb,
        0x3f, 0xd6, 0x6d, 0x04, 0x78, 0x0f, 0xa6, 0x1a,
        0xb1, 0x48, 0xdf, 0x53, 0xea, 0x81, 0x18, 0x8c,
        0x23, 0xba, 0x2e, 0xc5, 0x5c, 0xf3, 0x67, 0xfe,
        0x95, 0x09, 0xa0, 0x37, 0xce, 0x42, 0xd9, 0x70,
        0x07, 0x7b, 0x12, 0xa9, 0x1d, 0xb4, 0x4b, 0xe2,
        0x56, 0xed, 0x84, 0x1b, 0x8f, 0x26, 0xbd, 0x31,
        0xc8, 0x5f, 0xf6, 0x6a, 0x01, 0x98, 0x0c, 0xa3,
        0x3a, 0xd1, 0x45, 0xdc, 0x73, 0x0a, 0x7e, 0x15,
        0xac, 0x20, 0xb7, 0x4e, 0xe5, 0x59, 0xf0, 0x87,
        0x1e, 0x92, 0x29, 0xc0, 0x34, 0xcb, 0x62, 0xf9,
        0x6d, 0x04, 0x9b, 0x0f, 0xa6, 0x3d, 0xd4, 0x48,
        0xdf, 0x76, 0x0d, 0x81, 0x18, 0xaf, 0x23, 0xba,
        0x51, 0xe8, 0x5c, 0xf3, 0x8a, 0x21, 0x95, 0x2c,
        0xc3, 0x37, 0xce, 0x65, 0xfc, 0x70, 0x07, 0x9e,
        0x12, 0xa9, 0x40, 0xd7, 0x4b, 0xe2, 0x79, 0x10,
        0x84, 0x1b, 0xb2, 0x26, 0xbd, 0x54, 0xeb, 0x5f,
        0xf6, 0x8d, 0x01, 0x98, 0x2f, 0xc6, 0x3a, 0xd1,
        0x68, 0xff, 0x73, 0x0a, 0xa1, 0x15, 0xac, 0x43,
        0xda, 0x4e, 0xe5, 0x7c, 0x13, 0x87, 0x1e, 0xb5,
        0x29, 0xc0, 0x57, 0xee, 0x62, 0xf9, 0x90, 0x04,
        0x9b, 0x32, 0xc9, 0x3d, 0xd4, 0x6b, 0x02, 0x76,
        0x0d, 0xa4, 0x18, 0xaf, 0x46, 0xdd, 0x51, 0xe8,
        0x7f, 0x16, 0x8a, 0x21, 0xb8, 0x2c, 0xc3, 0x5a,
        0xf1, 0x65, 0xfc, 0x93, 0x07, 0x9e, 0x35, 0xcc,
        0x40, 0xd7, 0x6e, 0x05, 0x79, 0x10, 0xa7, 0x1b,
        0xb2, 0x49, 0xe0, 0x54, 0xeb, 0x82, 0x19, 0x8d,
        0x24, 0xbb, 0x2f, 0xc6, 0x5d, 0xf4, 0x68, 0xff,
        0x96, 0x0a, 0xa1, 0x38, 0xcf, 0x43, 0xda, 0x71,
        0x08, 0x7c, 0x13, 0xaa, 0x1e, 0xb5, 0x4c],
      psize := 1023,
      digest :=
       [0xc5, 0xce, 0x0c, 0xca, 0x01, 0x4f, 0x53, 0x3a,
        0x32, 0x32, 0x17, 0xcc, 0xd4, 0x6a, 0x71, 0xa9,
        0xf3, 0xed, 0x50, 0x10, 0x64, 0x8e, 0x06, 0xbe,
        0x9b, 0x4a, 0xa6, 0xbb, 0x05, 0x89, 0x59, 0x51] }
  ]

/-- The vector table blake2b_256_tv of the source. -/
def blake2b_256_tv : List hash_testvec :=
  [
    { plaintext := some [],
      psize := 0,
      digest :=
       [0x0e, 0x57, 0x51, 0xc0, 0x26, 0xe5, 0x43, 0xb2,
        0xe8, 0xab, 0x2e, 0xb0, 0x60, 0x99, 0xda, 0xa1,
        0xd1, 0xe5, 0xdf, 0x47, 0x77, 0x8f, 0x77, 0x87,
        0xfa, 0xab, 0x45, 0xcd, 0xf1, 0x2f, 0xe3, 0xa8] },
    { plaintext := some
       [0x00, 0x01, 0x02, 0x03, 0x04, 0x05, 0x06, 0x07,
        0x08, 0x09, 0x0a, 0x0b, 0x0c, 0x0d, 0x0e, 0x0f,
        0x10, 0x11, 0x12, 0x13, 0x14, 0x15, 0x16, 0x17,
        0x18, 0x19, 0x1a, 0x1b, 0x1c, 0x1d, 0x1e, 0x1f,
        0x20, 0x21, 0x22, 0x23, 0x24, 0x25, 0x26, 0x27,
        0x28, 0x29, 0x2a, 0x2b, 0x2c, 0x2d, 0x2e, 0x2f,
        0x30, 0x31, 0x32, 0x33, 0x34, 0x35, 0x36, 0x37,
        0x38, 0x39, 0x3a, 0x3b, 0x3c, 0x3d, 0x3e, 0x3f],
      psize := 64,
      digest :=
       [0x10, 0xd8, 0xe6, 0xd5, 0x34, 0xb0, 0x09, 0x39,
        0x84, 0x3f, 0xe9, 0xdc, 0xc4, 0xda, 0xe4, 0x8c,
        0xdf, 0x00, 0x8f, 0x6b, 0x8b, 0x2b, 0x82, 0xb1,
        0x56, 0xf5, 0x40, 0x4d, 0x87, 0x48, 0x87, 0xf5] },
    { plaintext := some
       [0x08, 0x9f, 0x13, 0xaa, 0x41, 0xd8, 0x4c, 0xe3,
        0x7a, 0x11, 0x85, 0x1c, 0xb3, 0x27, 0xbe, 0x55,
        0xec, 0x60, 0xf7, 0x8e, 0x02, 0x99, 0x30, 0xc7,
        0x3b, 0xd2, 0x69, 0x00, 0x74, 0x0b, 0xa2, 0x16,
        0xad, 0x44, 0xdb, 0x4f, 0xe6, 0x7d, 0x14, 0x88,
        0x1f, 0xb6, 0x2a, 0xc1, 0x58, 0xef, 0x63, 0xfa,
        0x91, 0x05, 0x9c, 0x33, 0xca, 0x3e, 0xd5, 0x6c,
        0x03, 0x77, 0x0e, 0xa5, 0x19, 0xb0, 0x47, 0xde,
        0x52, 0xe9, 0x80, 0x17, 0x8b, 0x22, 0xb9, 0x2d,
        0xc4, 0x5b, 0xf2, 0x66, 0xfd, 0x94, 0x08, 0x9f,
        0x36, 0xcd, 0x41, 0xd8, 0x6f, 0x06, 0x7a, 0x11,
        0xa8, 0x1c, 0xb3, 0x4a, 0xe1, 0x55, 0xec, 0x83,
        0x1a, 0x8e, 0x25, 0xbc, 0x30, 0xc7, 0x5e, 0xf5,
        0x69, 0x00, 0x97, 0x0b, 0xa2, 0x39, 0xd0, 0x44,
        0xdb, 0x72, 0x09, 0x7d, 0x14, 0xab, 0x1f, 0xb6,
        0x4d, 0xe4, 0x58, 0xef, 0x86, 0x1d, 0x91, 0x28,
        0xbf, 0x33, 0xca, 0x61, 0xf8, 0x6c, 0x03, 0x9a,
        0x0e, 0xa5, 0x3c, 0xd3, 0x47, 0xde, 0x75, 0x0c,
        0x80, 0x17, 0xae, 0x22, 0xb9, 0x50, 0xe7, 0x5b,
        0xf2, 0x89, 0x20, 0x94, 0x2b, 0xc2, 0x36, 0xcd,
        0x64, 0xfb, 0x6f, 0x06, 0x9d, 0x11, 0xa8, 0x3f,
        0xd6, 0x4a, 0xe1, 0x78, 0x0f, 0x83, 0x1a, 0xb1,
        0x25, 0xbc, 0x53, 0xea, 0x5e, 0xf5, 0x8c, 0x00,
        0x97, 0x2e, 0xc5, 0x39, 0xd0, 0x67, 0xfe, 0x72,
        0x09, 0xa0, 0x14, 0xab, 0x42, 0xd9, 0x4d, 0xe4,
        0x7b, 0x12, 0x86, 0x1d, 0xb4, 0x28, 0xbf, 0x56,
        0xed, 0x61, 0xf8, 0x8f, 0x03, 0x9a, 0x31, 0xc8,
        0x3c, 0xd3, 0x6a, 0x01, 0x75, 0x0c, 0xa3, 0x17,
        0xae, 0x45, 0xdc, 0x50, 0xe7, 0x7e, 0x15, 0x89,
        0x20, 0xb7, 0x2b, 0xc2, 0x59, 0xf0, 0x64, 0xfb,
        0x92, 0x06, 0x9d, 0x34, 0xcb, 0x3f, 0xd6, 0x6d,
        0x04, 0x78, 0x0f, 0xa6, 0x1a, 0xb1, 0x48, 0xdf,
        0x53, 0xea, 0x81, 0x18, 0x8c, 0x23, 0xba, 0x2e,
        0xc5, 0x5c, 0xf3, 0x67, 0xfe, 0x95, 0x09, 0xa0,
        0x37, 0xce, 0x42, 0xd9, 0x70, 0x07, 0x7b, 0x12,
        0xa9, 0x1d, 0xb4, 0x4b, 0xe2, 0x56, 0xed, 0x84,
        0x1b, 0x8f, 0x26, 0xbd, 0x31, 0xc8, 0x5f, 0xf6,
        0x6a, 0x01, 0x98, 0x0c, 0xa3, 0x3a, 0xd1, 0x45,
        0xdc, 0x73, 0x0a, 0x7e, 0x15, 0xac, 0x20, 0xb7,
        0x4e, 0xe5, 0x59, 0xf0, 0x87, 0x1e, 0x92, 0x29,
        0xc0, 0x34, 0xcb, 0x62, 0xf9, 0x6d, 0x04, 0x9b,
        0x0f, 0xa6, 0x3d, 0xd4, 0x48, 0xdf, 0x76, 0x0d,
        0x81, 0x18, 0xaf, 0x23, 0xba, 0x51, 0xe8, 0x5c,
        0xf3, 0x8a, 0x21, 0x95, 0x2c, 0xc3, 0x37, 0xce,
        0x65, 0xfc, 0x70, 0x07, 0x9e, 0x12, 0xa9, 0x40,
        0xd7, 0x4b, 0xe2, 0x79, 0x10, 0x84, 0x1b, 0xb2,
        0x26, 0xbd, 0x54, 0xeb, 0x5f, 0xf6, 0x8d, 0x01,
        0x98, 0x2f, 0xc6, 0x3a, 0xd1, 0x68, 0xff, 0x73,
        0x0a, 0xa1, 0x15, 0xac, 0x43, 0xda, 0x4e, 0xe5,
        0x7c, 0x13, 0x87, 0x1e, 0xb5, 0x29, 0xc0, 0x57,
        0xee, 0x62, 0xf9, 0x90, 0x04, 0x9b, 0x32, 0xc9,
        0x3d, 0xd4, 0x6b, 0x02, 0x76, 0x0d, 0xa4, 0x18,
        0xaf, 0x46, 0xdd, 0x51, 0xe8, 0x7f, 0x16, 0x8a,
        0x21, 0xb8, 0x2c, 0xc3, 0x5a, 0xf1, 0x65, 0xfc,
        0x93, 0x07, 0x9e, 0x35, 0xcc, 0x40, 0xd7, 0x6e,
        0x05, 0x79, 0x10, 0xa7, 0x1b, 0xb2, 0x49, 0xe0,
        0x54, 0xeb, 0x82, 0x19, 0x8d, 0x24, 0xbb, 0x2f,
        0xc6, 0x5d, 0xf4, 0x68, 0xff, 0x96, 0x0a, 0xa1,
        0x38, 0xcf, 0x43, 0xda, 0x71, 0x08, 0x7c, 0x13,
        0xaa, 0x1e, 0xb5, 0x4c, 0xe3, 0x57, 0xee, 0x85,
        0x1c, 0x90, 0x27, 0xbe, 0x32, 0xc9, 0x60, 0xf7,
        0x6b, 0x02, 0x99, 0x0d, 0xa4, 0x3b, 0xd2, 0x46,
        0xdd, 0x74, 0x0b, 0x7f, 0x16, 0xad, 0x21, 0xb8,
        0x4f, 0xe6, 0x5a, 0xf1, 0x88, 0x1f, 0x93, 0x2a,
        0xc1, 0x35, 0xcc, 0x63, 0xfa, 0x6e, 0x05, 0x9c,
        0x10, 0xa7, 0x3e, 0xd5, 0x49, 0xe0, 0x77, 0x0e,
        0x82, 0x19, 0xb0, 0x24, 0xbb, 0x52, 0xe9, 0x5d,
        0xf4, 0x8b, 0x22, 0x96, 0x2d, 0xc4, 0x38, 0xcf,
        0x66, 0xfd, 0x71, 0x08, 0x9f, 0x13, 0xaa, 0x41,
        0xd8, 0x4c, 0xe3, 0x7a, 0x11, 0x85, 0x1c, 0xb3,
        0x27, 0xbe, 0x55, 0xec, 0x60, 0xf7, 0x8e, 0x02,
        0x99, 0x30, 0xc7, 0x3b, 0xd2, 0x69, 0x00, 0x74,
        0x0b, 0xa2, 0x16, 0xad, 0x44, 0xdb, 0x4f, 0xe6,
        0x7d, 0x14, 0x88, 0x1f, 0xb6, 0x2a, 0xc1, 0x58,
        0xef, 0x63, 0xfa, 0x91, 0x05, 0x9c, 0x33, 0xca,
        0x3e, 0xd5, 0x6c, 0x03, 0x77, 0x0e, 0xa5, 0x19,
        0xb0, 0x47, 0xde, 0x52, 0xe9, 0x80, 0x17, 0x8b,
        0x22, 0xb9, 0x2d, 0xc4, 0x5b, 0xf2, 0x66, 0xfd,
        0x94, 0x08, 0x9f, 0x36, 0xcd, 0x41, 0xd8, 0x6f,
        0x06, 0x7a, 0x11, 0xa8, 0x1c, 0xb3, 0x4a, 0xe1,
        0x55, 0xec, 0x83, 0x1a, 0x8e, 0x25, 0xbc, 0x30,
        0xc7, 0x5e, 0xf5, 0x69, 0x00, 0x97, 0x0b, 0xa2,
        0x39, 0xd0, 0x44, 0xdb, 0x72, 0x09, 0x7d, 0x14,
        0xab, 0x1f, 0xb6, 0x4d, 0xe4, 0x58, 0xef, 0x86,
        0x1d, 0x91, 0x28, 0xbf, 0x33, 0xca, 0x61, 0xf8,
        0x6c, 0x03, 0x9a, 0x0e, 0xa5, 0x3c, 0xd3, 0x47,
        0xde, 0x75, 0x0c, 0x80, 0x17, 0xae, 0x22, 0xb9,
        0x50, 0xe7, 0x5b, 0xf2, 0x89, 0x20, 0x94, 0x2b,
        0xc2, 0x36, 0xcd, 0x64, 0xfb, 0x6f, 0x06, 0x9d,
        0x11, 0xa8, 0x3f, 0xd6, 0x4a, 0xe1, 0x78, 0x0f,
        0x83, 0x1a, 0xb1, 0x25, 0xbc, 0x53, 0xea, 0x5e,
        0xf5, 0x8c, 0x00, 0x97, 0x2e, 0xc5, 0x39, 0xd0,
        0x67, 0xfe, 0x72, 0x09, 0xa0, 0x14, 0xab, 0x42,
        0xd9, 0x4d, 0xe4, 0x7b, 0x12, 0x86, 0x1d, 0xb4,
        0x28, 0xbf, 0x56, 0xed, 0x61, 0xf8, 0x8f, 0x03,
        0x9a, 0x31, 0xc8, 0x3c, 0xd3, 0x6a, 0x01, 0x75,
        0x0c, 0xa3, 0x17, 0xae, 0x45, 0xdc, 0x50, 0xe7,
        0x7e, 0x15, 0x89, 0x20, 0xb7, 0x2b, 0xc2, 0x59,
        0xf0, 0x64, 0xfb, 0x92, 0x06, 0x9d, 0x34, 0xcb,
        0x3f, 0xd6, 0x6d, 0x04, 0x78, 0x0f, 0xa6, 0x1a,
        0xb1, 0x48, 0xdf, 0x53, 0xea, 0x81, 0x18, 0x8c,
        0x23, 0xba, 0x2e, 0xc5, 0x5c, 0xf3, 0x67, 0xfe,
        0x95, 0x09, 0xa0, 0x37, 0xce, 0x42, 0xd9, 0x70,
        0x07, 0x7b, 0x12, 0xa9, 0x1d, 0xb4, 0x4b, 0xe2,
        0x56, 0xed, 0x84, 0x1b, 0x8f, 0x26, 0xbd, 0x31,
        0xc8, 0x5f, 0xf6, 0x6a, 0x01, 0x98, 0x0c, 0xa3,
        0x3a, 0xd1, 0x45, 0xdc, 0x73, 0x0a, 0x7e, 0x15,
        0xac, 0x20, 0xb7, 0x4e, 0xe5, 0x59, 0xf0, 0x87,
        0x1e, 0x92, 0x29, 0xc0, 0x34, 0xcb, 0x62, 0xf9,
        0x6d, 0x04, 0x9b, 0x0f, 0xa6, 0x3d, 0xd4, 0x48,
        0xdf, 0x76, 0x0d, 0x81, 0x18, 0xaf, 0x23, 0xba,
        0x51, 0xe8, 0x5c, 0xf3, 0x8a, 0x21, 0x95, 0x2c,
        0xc3, 0x37, 0xce, 0x65, 0xfc, 0x70, 0x07, 0x9e,
        0x12, 0xa9, 0x40, 0xd7, 0x4b, 0xe2, 0x79, 0x10,
        0x84, 0x1b, 0xb2, 0x26, 0xbd, 0x54, 0xeb, 0x5f,
        0xf6, 0x8d, 0x01, 0x98, 0x2f, 0xc6, 0x3a, 0xd1,
        0x68, 0xff, 0x73, 0x0a, 0xa1, 0x15, 0xac, 0x43,
        0xda, 0x4e, 0xe5, 0x7c, 0x13, 0x87, 0x1e, 0xb5,
        0x29, 0xc0, 0x57, 0xee, 0x62, 0xf9, 0x90, 0x04,
        0x9b, 0x32, 0xc9, 0x3d, 0xd4, 0x6b, 0x02, 0x76,
        0x0d, 0xa4, 0x18, 0xaf, 0x46, 0xdd, 0x51, 0xe8,
        0x7f, 0x16, 0x8a, 0x21, 0xb8, 0x2c, 0xc3, 0x5a,
        0xf1, 0x65, 0xfc, 0x93, 0x07, 0x9e, 0x35, 0xcc,
        0x40, 0xd7, 0x6e, 0x05, 0x79, 0x10, 0xa7, 0x1b,
        0xb2, 0x49, 0xe0, 0x54, 0xeb, 0x82, 0x19, 0x8d,
        0x24, 0xbb, 0x2f, 0xc6, 0x5d, 0xf4, 0x68, 0xff,
        0x96, 0x0a, 0xa1, 0x38, 0xcf, 0x43, 0xda, 0x71,
        0x08, 0x7c, 0x13, 0xaa, 0x1e, 0xb5, 0x4c],
      psize := 1023,
      digest :=
       [0xb4, 0x82, 0x0f, 0x69, 0x9c, 0xc9, 0x3e, 0x51,
        0xbf, 0xe6, 0x82, 0x94, 0x3f, 0x59, 0x91, 0xee,
        0x18, 0xa6, 0x27, 0xc3, 0x00, 0x12, 0xa5, 0xd0,
        0x92, 0x3a, 0xb1, 0xc6, 0xa3, 0x46, 0x5a, 0xea] }
  ]
/-- The registry test_spec of the source; `ARRAY_SIZE(t)` is the length of the
table `t`. -/
def test_spec (cfg : Config) : List hash_testspec :=
  [ { name := "CRC32C-ref",
      digest_size := 4,
      testvec := crc32c_tv,
      count := crc32c_tv.length,
      cpu_flag := cfg.CPU_FLAG_NONE,
      hash := HashFn.hash_crc32c },
    { name := "CRC32C-NI",
      digest_size := 4,
      testvec := crc32c_tv,
      count := crc32c_tv.length,
      cpu_flag := cfg.CPU_FLAG_SSE42,
      hash := HashFn.hash_crc32c },
    { name := "XXHASH",
      digest_size := 8,
      testvec := xxhash64_tv,
      count := xxhash64_tv.length,
      cpu_flag := cfg.CPU_FLAG_NONE,
      hash := HashFn.hash_xxhash },
    { name := "SHA256-ref",
      digest_size := 32,
      testvec := sha256_tv,
      count := sha256_tv.length,
      cpu_flag := cfg.CPU_FLAG_NONE,
      hash := HashFn.hash_sha256 },
    { name := "SHA256-gcrypt",
      digest_size := 32,
      testvec := sha256_tv,
      count := sha256_tv.length,
      cpu_flag := cfg.CPU_FLAG_NONE,
      hash := HashFn.hash_sha256,
      backend := cfg.CRYPTOPROVIDER_LIBGCRYPT + 1 },
    { name := "SHA256-sodium",
      digest_size := 32,
      testvec := sha256_tv,
      count := sha256_tv.length,
      cpu_flag := cfg.CPU_FLAG_NONE,
      hash := HashFn.hash_sha256,
      backend := cfg.CRYPTOPROVIDER_LIBSODIUM + 1 },
    { name := "SHA256-kcapi",
      digest_size := 32,
      testvec := sha256_tv,
      count := sha256_tv.length,
      cpu_flag := cfg.CPU_FLAG_NONE,
      hash := HashFn.hash_sha256,
      backend := cfg.CRYPTOPROVIDER_LIBKCAPI + 1 },
    { name := "SHA256-NI",
      digest_size := 32,
      testvec := sha256_tv,
      count := sha256_tv.length,
      cpu_flag := cfg.CPU_FLAG_SHA,
      hash := HashFn.hash_sha256,
      backend := cfg.CRYPTOPROVIDER_BUILTIN + 1 },
    { name := "BLAKE2-ref",
      digest_size := 32,
      testvec := blake2b_256_tv,
      count := blake2b_256_tv.length,
      cpu_flag := cfg.CPU_FLAG_NONE,
      hash := HashFn.hash_blake2b,
      backend := cfg.CRYPTOPROVIDER_BUILTIN + 1 },
    { name := "BLAKE2-gcrypt",
      digest_size := 32,
      testvec := blake2b_256_tv,
      count := blake2b_256_tv.length,
      cpu_flag := cfg.CPU_FLAG_NONE,
      hash := HashFn.hash_blake2b,
      backend := cfg.CRYPTOPROVIDER_LIBGCRYPT + 1 },
    { name := "BLAKE2-sodium",
      digest_size := 32,
      testvec := blake2b_256_tv,
      count := blake2b_256_tv.length,
      cpu_flag := cfg.CPU_FLAG_NONE,
      hash := HashFn.hash_blake2b,
      backend := cfg.CRYPTOPROVIDER_LIBSODIUM + 1 },
    { name := "BLAKE2-kcapi",
      digest_size := 32,
      testvec := blake2b_256_tv,
      count := blake2b_256_tv.length,
      cpu_flag := cfg.CPU_FLAG_NONE,
      hash := HashFn.hash_blake2b,
      backend := cfg.CRYPTOPROVIDER_LIBKCAPI + 1 },
    { name := "BLAKE2-SSE2",
      digest_size := 32,
      testvec := blake2b_256_tv,
      count := blake2b_256_tv.length,
      cpu_flag := cfg.CPU_FLAG_SSE2,
      hash := HashFn.hash_blake2b,
      backend := cfg.CRYPTOPROVIDER_BUILTIN + 1 },
    { name := "BLAKE2-SSE41",
      digest_size := 32,
      testvec := blake2b_256_tv,
      count := blake2b_256_tv.length,
      cpu_flag := cfg.CPU_FLAG_SSE41,
      hash := HashFn.hash_blake2b,
      backend := cfg.CRYPTOPROVIDER_BUILTIN + 1 },
    { name := "BLAKE2-AVX2",
      digest_size := 32,
      testvec := blake2b_256_tv,
      count := blake2b_256_tv.length,
      cpu_flag := cfg.CPU_FLAG_AVX2,
      hash := HashFn.hash_blake2b,
      backend := cfg.CRYPTOPROVIDER_BUILTIN + 1 } ]

/-- The loop of main over the registry: test_hash is called on each
specification in turn and its return value is dropped. -/
def main_loop (env : Env) : List hash_testspec → List Event → List Event
  | [], _ => []
  | spec :: rest, hist =>
    let r := test_hash env spec hist
    r.1 ++ main_loop env rest (hist ++ r.1)

/-- The events main performs before its loop. -/
def main_setup (cfg : Config) : List Event :=
  [Event.cpu_detect_flags, Event.cpu_print_flags, Event.hash_init_accel,
   Event.implementation cfg.CRYPTOPROVIDER]

/-- The function main of the source: the events of the whole run and the
process exit status. -/
def main (cfg : Config) (env : Env) : List Event × Int :=
  (main_setup cfg ++ main_loop env (test_spec cfg) (main_setup cfg), 0)

/-- A sample build configuration: flag bits of common/cpu-utils.h and a builtin
crypto provider. -/
def sample_cfg : Config :=
  { CPU_FLAG_NONE := 0, CPU_FLAG_SSE2 := 1, CPU_FLAG_SSE41 := 4, CPU_FLAG_SSE42 := 8,
    CPU_FLAG_SHA := 16, CPU_FLAG_AVX2 := 64,
    CRYPTOPROVIDER_BUILTIN := 1, CRYPTOPROVIDER_LIBGCRYPT := 0,
    CRYPTOPROVIDER_LIBSODIUM := 0, CRYPTOPROVIDER_LIBKCAPI := 0,
    CRYPTOPROVIDER := "builtin" }

/-- The hexadecimal digit of a value below 16, in lower case. -/
def hex_digit (d : Nat) : Char :=
  "0123456789abcdef".toList.getD d '0'

/-- The conversion `%02hhx` of printf: the argument is reduced to an
unsigned char and written as two lower-case hexadecimal digits. -/
def fmt_02hhx (b : Nat) : String :=
  String.mk [hex_digit (b % 256 / 16), hex_digit (b % 16)]

/-- The conversion `%zd` of printf applied to a size_t: the 64-bit value read
as a signed number. -/
def fmt_zd (n : Nat) : String :=
  if n % 2 ^ 64 < 2 ^ 63 then toString (n % 2 ^ 64)
  else "-" ++ toString (2 ^ 64 - n % 2 ^ 64)

/-- The text an event writes to standard output (nothing for the calls that
do not print there). -/
def Event.stdout : Event → String
  | .skipped name => name ++ " skipped, no CPU support\n"
  | .header name count => "TEST: name=" ++ name ++ " vectors=" ++ fmt_zd count ++ "\n"
  | .vec_match name i => name ++ " vector " ++ toString i ++ ": match\n"
  | .vec_mismatch name i => name ++ " vector " ++ toString i ++ ": MISMATCH\n"
  | .want_label => "  want:"
  | .have_label => "  have:"
  | .hex_byte b => " " ++ fmt_02hhx b
  | .newline => "\n"
  | .implementation provider => "Implementation: " ++ provider ++ "\n"
  | _ => ""

/-- A byte string written as hexadecimal digits without separators. -/
def hex_string (bs : List Nat) : String :=
  String.join (bs.map fmt_02hhx)

/-- Whether the event is a call of the hash function. -/
def Event.is_hash : Event → Bool
  | .hash .. => true
  | _ => false

/-- Whether the event is a call of the hash function that returned a negative
status. -/
def Event.is_failed_hash : Event → Bool
  | .hash _ _ _ _ ret _ => decide (ret < 0)
  | _ => false

/-- Whether the event is a match or MISMATCH line. -/
def Event.is_verdict : Event → Bool
  | .vec_match .. => true
  | .vec_mismatch .. => true
  | _ => false

/-- Whether the event is the header line. -/
def Event.is_header : Event → Bool
  | .header .. => true
  | _ => false

/-- The vector index an event belongs to: the loop index of a hash call and
the index printed in a match or MISMATCH line. -/
def Event.index : Event → Option Nat
  | .hash i .. => some i
  | .vec_match _ i => some i
  | .vec_mismatch _ i => some i
  | _ => none

/-- The calls of the hash function in a trace, in order: loop index, function,
plaintext and length passed. -/
def hash_calls (tr : List Event) : List (Nat × HashFn × Option (List Nat) × Nat) :=
  tr.filterMap fun e =>
    match e with
    | .hash i fn p n _ _ => some (i, fn, p, n)
    | _ => none

/-- The match and MISMATCH lines of a trace, in order: the name and index
printed, and `true` for match. -/
def verdicts (tr : List Event) : List (String × Nat × Bool) :=
  tr.filterMap fun e =>
    match e with
    | .vec_match name i => some (name, i, true)
    | .vec_mismatch name i => some (name, i, false)
    | _ => none

/-- The active CPU feature level: the reset state, or a level set by
cpu_set_level. -/
inductive Level where
  | reset
  | active (flag : Nat)
  deriving DecidableEq, Repr, Inhabited

/-- Modelled from the spec: cpu_set_level and cpu_reset_level live in
common/cpu-utils.c, outside the sources at hand.  The spec describes them as
scoped activation: `set_active(feature)` sets the level that accelerated
backends consult and `clear_active()` restores the state in which no
acceleration is requested.  No other call of the driver touches the level. -/
def Level.step : Level → Event → Level
  | _, .cpu_set_level flag => .active flag
  | _, .cpu_reset_level => .reset
  | l, _ => l

/-- The active CPU feature level after a trace, starting from level `l`. -/
def level_after (l : Level) (tr : List Event) : Level :=
  tr.foldl Level.step l

/-- Whether every call of the hash function in a trace is directly followed
by cpu_reset_level. -/
def reset_follows_hash : List Event → Bool
  | [] => true
  | .hash .. :: .cpu_reset_level :: rest => reset_follows_hash rest
  | .hash .. :: _ => false
  | _ :: rest => reset_follows_hash rest

/-- A sample environment: no CPU feature is detected and every hash call
returns the status -1. -/
def env_fail : Env :=
  ⟨fun _ => false, fun _ _ _ _ => (-1, [])⟩

/-- A sample environment: no CPU feature is detected, the first hash call of a
run succeeds and leaves four zero bytes, every later one returns -1. -/
def env_second_fails : Env :=
  ⟨fun _ => false, fun _ hist _ _ =>
    if hist.any Event.is_hash then (-1, []) else (0, [0, 0, 0, 0])⟩

/-- A sample environment: every CPU feature is detected and every hash call
succeeds and leaves 32 zero bytes. -/
def env_zero : Env :=
  ⟨fun _ => true, fun _ _ _ _ => (0, List.replicate 32 0)⟩

/-- Entry `k` of the registry under the sample configuration. -/
def sample_spec (k : Nat) : hash_testspec :=
  (test_spec sample_cfg).getD k default

/-- The calls `test_hash(&test_spec[i])` that the loop of main makes, in order:
the specification passed, the history of the run at the call, and the value
test_hash returns (which main drops). -/
def main_invocations (env : Env) :
    List hash_testspec → List Event → List (hash_testspec × List Event × Int)
  | [], _ => []
  | spec :: rest, hist =>
    let r := test_hash env spec hist
    (spec, hist, r.2) :: main_invocations env rest (hist ++ r.1)

/-- The collaborators test_hash calls apart from stdio. -/
inductive Call where
  | cpu_set_level
  | hash_init_accel
  | hash
  | cpu_reset_level
  deriving DecidableEq, Repr, Inhabited

/-- Which collaborator an event calls; nothing for the events that only
print. -/
def Event.call : Event → Option Call
  | .cpu_set_level _ => some Call.cpu_set_level
  | .hash_init_accel => some Call.hash_init_accel
  | .hash .. => some Call.hash
  | .cpu_reset_level => some Call.cpu_reset_level
  | _ => none

/-- The process-wide state the driver acts on: the active CPU feature level
and the accelerator selection, recorded as the level that was active when
hash_init_accel last ran. -/
structure Machine where
  level : Level
  accel : Level
  deriving DecidableEq, Repr, Inhabited

/-- Modelled from the spec: hash_init_accel lives in crypto/hash.c and
cpu_set_level, cpu_reset_level in common/cpu-utils.c, outside the sources at
hand.  The spec describes the level as the state that accelerated code paths
consult, set by `set_active(feature)` and restored by `clear_active()`;
hash_init_accel picks the implementations for the level that is active when it
runs, so the selection it leaves is determined by that level.  No other call
of the driver touches either. -/
def Machine.step (m : Machine) : Event → Machine
  | .cpu_set_level flag => ⟨Level.active flag, m.accel⟩
  | .cpu_reset_level => ⟨Level.reset, m.accel⟩
  | .hash_init_accel => ⟨m.level, m.level⟩
  | _ => m

/-- The state of the machine after a trace. -/
def machine_after (m : Machine) (tr : List Event) : Machine :=
  tr.foldl Machine.step m

/-- The levels under which the calls of hash_init_accel in a trace were made,
in order, when the trace starts in state `m`. -/
def init_levels : Machine → List Event → List Level
  | _, [] => []
  | m, .hash_init_accel :: rest => m.level :: init_levels (m.step .hash_init_accel) rest
  | m, e :: rest => init_levels (m.step e) rest

/-- The number of bytes behind the plaintext pointer of a vector: the bytes of
the literal, and none for the null pointer. -/
def hash_testvec.plaintext_size (v : hash_testvec) : Nat :=
  match v.plaintext with
  | none => 0
  | some p => p.length

/-! ## Shape of one loop iteration -/

/-- The four ways an iteration of the loop can go. -/
theorem test_hash_iter_cases (env : Env) (spec : hash_testspec) (i : Nat) (header : Bool)
    (hist : List Event) :
    ((spec.cpu_flag ≠ 0 ∧ env.cpu_has_feature spec.cpu_flag = false) ∧
      test_hash_iter env spec i header hist = ([Event.skipped spec.name], header, none)) ∨
    (¬ (spec.cpu_flag ≠ 0 ∧ env.cpu_has_feature spec.cpu_flag = false) ∧ spec.backend = 1 ∧
      test_hash_iter env spec i header hist = ([], header, none)) ∨
    (¬ (spec.cpu_flag ≠ 0 ∧ env.cpu_has_feature spec.cpu_flag = false) ∧ spec.backend ≠ 1 ∧
      (call_result env spec i header hist).1 < 0 ∧
      test_hash_iter env spec i header hist =
        (call_events env spec i header hist ++
          [Event.error spec.name (call_result env spec i header hist).1], true, some 1)) ∨
    (¬ (spec.cpu_flag ≠ 0 ∧ env.cpu_has_feature spec.cpu_flag = false) ∧ spec.backend ≠ 1 ∧
      ¬ (call_result env spec i header hist).1 < 0 ∧
      test_hash_iter env spec i header hist =
        (call_events env spec i header hist ++
          verdict_events spec i (call_result env spec i header hist).2, true, none)) := by
  unfold test_hash_iter
  by_cases hcpu : spec.cpu_flag ≠ 0 ∧ env.cpu_has_feature spec.cpu_flag = false
  · left
    exact ⟨hcpu, by rw [if_pos hcpu]⟩
  · right
    by_cases hb : spec.backend = 1
    · left
      exact ⟨hcpu, hb, by rw [if_neg hcpu, if_pos hb]⟩
    · right
      by_cases hret : (call_result env spec i header hist).1 < 0
      · left
        exact ⟨hcpu, hb, hret, by rw [if_neg hcpu, if_neg hb]; simp only [hret, if_true]⟩
      · right
        exact ⟨hcpu, hb, hret, by rw [if_neg hcpu, if_neg hb]; simp only [hret, if_false]⟩

/-- Unfolding of the loop when the iteration returns. -/
theorem test_hash_loop_return (env : Env) (spec : hash_testspec) (n i : Nat) (header : Bool)
    (hist es : List Event) (h1 : Bool) (v : Int)
    (h : test_hash_iter env spec i header hist = (es, h1, some v)) :
    test_hash_loop env spec (n + 1) i header hist = (es, v) := by
  simp only [test_hash_loop, h]

/-- Unfolding of the loop when the iteration falls through to the next one. -/
theorem test_hash_loop_next (env : Env) (spec : hash_testspec) (n i : Nat) (header : Bool)
    (hist es : List Event) (h1 : Bool)
    (h : test_hash_iter env spec i header hist = (es, h1, none)) :
    test_hash_loop env spec (n + 1) i header hist =
      (es ++ (test_hash_loop env spec n (i + 1) h1 (hist ++ es)).1,
       (test_hash_loop env spec n (i + 1) h1 (hist ++ es)).2) := by
  simp only [test_hash_loop, h]

/-! ## Events of the pieces of an iteration -/

theorem mem_dispatch_pre (spec : hash_testspec) (header : Bool) (e : Event)
    (he : e ∈ dispatch_pre spec header) :
    e = Event.header spec.name spec.count ∨ e = Event.cpu_set_level spec.cpu_flag ∨
      e = Event.hash_init_accel := by
  unfold dispatch_pre at he
  rw [List.mem_append] at he
  rcases he with he | he
  · split_ifs at he
    · simp at he; exact Or.inl he
    · simp at he
  · split_ifs at he
    · simp at he
      exact Or.inr he
    · simp at he

theorem mem_print_hex (buf : List Nat) (size : Nat) (e : Event) (he : e ∈ print_hex buf size) :
    ∃ b, e = Event.hex_byte b := by
  unfold print_hex at he
  rw [List.mem_map] at he
  obtain ⟨j, _, hj⟩ := he
  exact ⟨_, hj.symm⟩

theorem mem_verdict_events (spec : hash_testspec) (i : Nat) (csum : List Nat) (e : Event)
    (he : e ∈ verdict_events spec i csum) :
    e = Event.vec_match spec.name i ∨ e = Event.vec_mismatch spec.name i ∨
      e = Event.want_label ∨ e = Event.have_label ∨ e = Event.newline ∨
      ∃ b, e = Event.hex_byte b := by
  unfold verdict_events at he
  split_ifs at he
  · simp at he; exact Or.inl he
  · simp only [List.mem_append, List.mem_cons, List.mem_singleton, List.not_mem_nil,
      or_false] at he
    rcases he with (((((he | he) | he) | (he | he)) | he) | he)
    · exact Or.inr (Or.inl he)
    · exact Or.inr (Or.inr (Or.inl he))
    · exact Or.inr (Or.inr (Or.inr (Or.inr (Or.inr (mem_print_hex _ _ _ he)))))
    · exact Or.inr (Or.inr (Or.inr (Or.inr (Or.inl he))))
    · exact Or.inr (Or.inr (Or.inr (Or.inl he)))
    · exact Or.inr (Or.inr (Or.inr (Or.inr (Or.inr (mem_print_hex _ _ _ he)))))
    · exact Or.inr (Or.inr (Or.inr (Or.inr (Or.inl he))))

theorem mem_call_events (env : Env) (spec : hash_testspec) (i : Nat) (header : Bool)
    (hist : List Event) (e : Event) (he : e ∈ call_events env spec i header hist) :
    e ∈ dispatch_pre spec header ∨
      e = Event.hash i spec.hash (spec.vec i).plaintext (spec.vec i).psize
        (call_result env spec i header hist).1 (call_result env spec i header hist).2 ∨
      e = Event.cpu_reset_level := by
  unfold call_events at he
  simpa using he

/-! ## The two skip paths -/

theorem test_hash_loop_cpu_skip (env : Env) (spec : hash_testspec)
    (hcpu : spec.cpu_flag ≠ 0 ∧ env.cpu_has_feature spec.cpu_flag = false)
    (n i : Nat) (header : Bool) (hist : List Event) :
    test_hash_loop env spec n i header hist =
      (List.replicate n (Event.skipped spec.name), 0) := by
  induction n generalizing i header hist with
  | zero => rfl
  | succ n ih =>
    rcases test_hash_iter_cases env spec i header hist with h | h | h | h
    · rw [test_hash_loop_next env spec n i header hist _ _ h.2, ih]
      rfl
    · exact absurd hcpu h.1
    · exact absurd hcpu h.1
    · exact absurd hcpu h.1

theorem test_hash_loop_backend_skip (env : Env) (spec : hash_testspec)
    (hcpu : ¬ (spec.cpu_flag ≠ 0 ∧ env.cpu_has_feature spec.cpu_flag = false))
    (hb : spec.backend = 1)
    (n i : Nat) (header : Bool) (hist : List Event) :
    test_hash_loop env spec n i header hist = ([], 0) := by
  induction n generalizing i header hist with
  | zero => rfl
  | succ n ih =>
    rcases test_hash_iter_cases env spec i header hist with h | h | h | h
    · exact absurd h.1 hcpu
    · rw [test_hash_loop_next env spec n i header hist _ _ h.2.2, ih]
      rfl
    · exact absurd hb h.2.1
    · exact absurd hb h.2.1

/-! ## Indices and failures within one iteration -/

/-- What the loop relies on, iteration by iteration: every indexed event of
iteration `i` carries index `i`; an iteration that falls through has no
failed hash call; an iteration that returns returns 1, holds a failed hash
call of index `i` and no verdict line. -/
theorem test_hash_iter_events (env : Env) (spec : hash_testspec) (i : Nat) (header : Bool)
    (hist : List Event) :
    (∀ e ∈ (test_hash_iter env spec i header hist).1, ∀ j, e.index = some j → j = i) ∧
    ((test_hash_iter env spec i header hist).2.2 = none →
      ∀ e ∈ (test_hash_iter env spec i header hist).1, e.is_failed_hash = false) ∧
    (∀ v, (test_hash_iter env spec i header hist).2.2 = some v →
      v = 1 ∧
      (∃ e ∈ (test_hash_iter env spec i header hist).1,
        e.is_failed_hash = true ∧ e.index = some i) ∧
      ∀ e ∈ (test_hash_iter env spec i header hist).1, e.is_verdict = false) := by
  rcases test_hash_iter_cases env spec i header hist with h | h | h | h
  · rw [h.2]
    simp [Event.index, Event.is_failed_hash]
  · rw [h.2.2]
    simp
  · obtain ⟨_, _, hret, heq⟩ := h
    rw [heq]
    refine ⟨?_, ?_, ?_⟩
    · intro e he j hj
      simp only [List.mem_append, List.mem_singleton] at he
      rcases he with he | rfl
      · rcases mem_call_events _ _ _ _ _ _ he with he | rfl | rfl
        · rcases mem_dispatch_pre _ _ _ he with rfl | rfl | rfl <;> simp [Event.index] at hj
        · simpa [Event.index] using hj.symm
        · simp [Event.index] at hj
      · simp [Event.index] at hj
    · intro hn
      simp at hn
    · intro v hv
      simp only [Option.some.injEq] at hv
      refine ⟨hv.symm, ⟨Event.hash i spec.hash (spec.vec i).plaintext (spec.vec i).psize
        (call_result env spec i header hist).1 (call_result env spec i header hist).2,
        List.mem_append_left _ (by
          unfold call_events
          exact List.mem_append_right _ (List.mem_cons_self _ _)), ?_, rfl⟩, ?_⟩
      · simpa [Event.is_failed_hash] using hret
      · intro e he
        simp only [List.mem_append, List.mem_singleton] at he
        rcases he with he | rfl
        · rcases mem_call_events _ _ _ _ _ _ he with he | rfl | rfl
          · rcases mem_dispatch_pre _ _ _ he with rfl | rfl | rfl <;> rfl
          · rfl
          · rfl
        · rfl
  · obtain ⟨_, _, hret, heq⟩ := h
    rw [heq]
    refine ⟨?_, ?_, ?_⟩
    · intro e he j hj
      simp only [List.mem_append] at he
      rcases he with he | he
      · rcases mem_call_events _ _ _ _ _ _ he with he | rfl | rfl
        · rcases mem_dispatch_pre _ _ _ he with rfl | rfl | rfl <;> simp [Event.index] at hj
        · simpa [Event.index] using hj.symm
        · simp [Event.index] at hj
      · rcases mem_verdict_events _ _ _ _ he with rfl | rfl | rfl | rfl | rfl | ⟨b, rfl⟩ <;>
          simp [Event.index] at hj <;> exact hj.symm
    · intro _ e he
      simp only [List.mem_append] at he
      rcases he with he | he
      · rcases mem_call_events _ _ _ _ _ _ he with he | rfl | rfl
        · rcases mem_dispatch_pre _ _ _ he with rfl | rfl | rfl <;> rfl
        · simpa [Event.is_failed_hash] using hret
        · rfl
      · rcases mem_verdict_events _ _ _ _ he with rfl | rfl | rfl | rfl | rfl | ⟨b, rfl⟩ <;> rfl
    · intro v hv
      simp at hv

/-! ## The loop as a whole -/

/-- One step of the loop, phrased on the result of the iteration. -/
theorem test_hash_loop_succ (env : Env) (spec : hash_testspec) (n i : Nat) (header : Bool)
    (hist : List Event) :
    (∃ v, (test_hash_iter env spec i header hist).2.2 = some v ∧
      test_hash_loop env spec (n + 1) i header hist =
        ((test_hash_iter env spec i header hist).1, v)) ∨
    ((test_hash_iter env spec i header hist).2.2 = none ∧
      test_hash_loop env spec (n + 1) i header hist =
        ((test_hash_iter env spec i header hist).1 ++
          (test_hash_loop env spec n (i + 1) (test_hash_iter env spec i header hist).2.1
            (hist ++ (test_hash_iter env spec i header hist).1)).1,
         (test_hash_loop env spec n (i + 1) (test_hash_iter env spec i header hist).2.1
            (hist ++ (test_hash_iter env spec i header hist).1)).2)) := by
  rcases hx : test_hash_iter env spec i header hist with ⟨es, h1, r⟩
  cases r with
  | none => exact Or.inr ⟨rfl, test_hash_loop_next env spec n i header hist es h1 hx⟩
  | some v => exact Or.inl ⟨v, rfl, test_hash_loop_return env spec n i header hist es h1 v hx⟩

/-- Events of the loop entered at index `i` carry indices from `i` on. -/
theorem test_hash_loop_index_ge (env : Env) (spec : hash_testspec) (n i : Nat) (header : Bool)
    (hist : List Event) :
    ∀ e ∈ (test_hash_loop env spec n i header hist).1, ∀ j, e.index = some j → i ≤ j := by
  induction n generalizing i header hist with
  | zero =>
    intro e he
    simp [test_hash_loop] at he
  | succ n ih =>
    have hiter := test_hash_iter_events env spec i header hist
    intro e he j hj
    rcases test_hash_loop_succ env spec n i header hist with ⟨v, _, heq⟩ | ⟨_, heq⟩
    · rw [heq] at he
      exact le_of_eq (hiter.1 e he j hj).symm
    · rw [heq] at he
      rcases List.mem_append.mp he with he | he
      · exact le_of_eq (hiter.1 e he j hj).symm
      · exact Nat.le_of_succ_le (ih _ _ _ e he j hj)

/-- The loop returns 0 or 1, and 1 exactly when its trace holds a failed hash
call. -/
theorem test_hash_loop_ret (env : Env) (spec : hash_testspec) (n i : Nat) (header : Bool)
    (hist : List Event) :
    ((test_hash_loop env spec n i header hist).2 = 0 ∨
      (test_hash_loop env spec n i header hist).2 = 1) ∧
    ((test_hash_loop env spec n i header hist).2 = 1 ↔
      ∃ e ∈ (test_hash_loop env spec n i header hist).1, e.is_failed_hash = true) := by
  induction n generalizing i header hist with
  | zero => simp [test_hash_loop]
  | succ n ih =>
    have hiter := test_hash_iter_events env spec i header hist
    rcases test_hash_loop_succ env spec n i header hist with ⟨v, hv, heq⟩ | ⟨hnone, heq⟩
    · obtain ⟨hv1, ⟨e, he, hf, _⟩, _⟩ := hiter.2.2 v hv
      rw [heq]
      subst hv1
      exact ⟨Or.inr rfl, fun _ => ⟨e, he, hf⟩, fun _ => rfl⟩
    · rw [heq]
      refine ⟨(ih _ _ _).1, ?_⟩
      rw [(ih _ _ _).2]
      constructor
      · rintro ⟨e, he, hf⟩
        exact ⟨e, List.mem_append_right _ he, hf⟩
      · rintro ⟨e, he, hf⟩
        rcases List.mem_append.mp he with he | he
        · have := hiter.2.1 hnone e he
          rw [this] at hf
          exact absurd hf (by simp)
        · exact ⟨e, he, hf⟩

/-- After a failed hash call of index `k` the loop holds no event of a later
index and no verdict line of index `k` or later. -/
theorem test_hash_loop_after_fail (env : Env) (spec : hash_testspec) (n i : Nat)
    (header : Bool) (hist : List Event) :
    ∀ e ∈ (test_hash_loop env spec n i header hist).1, e.is_failed_hash = true →
      ∀ k, e.index = some k →
      ∀ e2 ∈ (test_hash_loop env spec n i header hist).1, ∀ j, e2.index = some j →
        j ≤ k ∧ (e2.is_verdict = true → j < k) := by
  induction n generalizing i header hist with
  | zero =>
    intro e he
    simp [test_hash_loop] at he
  | succ n ih =>
    have hiter := test_hash_iter_events env spec i header hist
    intro e he hf k hk e2 he2 j hj
    rcases test_hash_loop_succ env spec n i header hist with ⟨v, hv, heq⟩ | ⟨hnone, heq⟩
    · rw [heq] at he he2
      obtain ⟨_, _, hnov⟩ := hiter.2.2 v hv
      have h1 := hiter.1 e he k hk
      have h2 := hiter.1 e2 he2 j hj
      subst h1 h2
      refine ⟨le_refl _, fun hver => ?_⟩
      rw [hnov e2 he2] at hver
      exact absurd hver (by simp)
    · rw [heq] at he he2
      rcases List.mem_append.mp he with he | he
      · rw [hiter.2.1 hnone e he] at hf
        exact absurd hf (by simp)
      · have hk1 := test_hash_loop_index_ge env spec n (i + 1) _ _ e he k hk
        rcases List.mem_append.mp he2 with he2 | he2
        · have h2 := hiter.1 e2 he2 j hj
          subst h2
          exact ⟨by omega, fun _ => by omega⟩
        · exact ih _ _ _ e he hf k hk e2 he2 j hj

/-! ## Claims -/

/-- C1. Hard failure stops the specification: test_hash returns 1 exactly when
one of its hash calls returned a negative status, and 0 in every other case;
when the call for vector k returned a negative status, no hash call and no
match or MISMATCH line of the trace belongs to a vector after k, and no match
or MISMATCH line belongs to vector k itself. -/
theorem test_hash_hard_failure (env : Env) (spec : hash_testspec) (hist : List Event) :
    ((test_hash env spec hist).2 = 1 ↔
      ∃ e ∈ (test_hash env spec hist).1, e.is_failed_hash = true) ∧
    ((test_hash env spec hist).2 = 0 ↔
      ¬ ∃ e ∈ (test_hash env spec hist).1, e.is_failed_hash = true) ∧
    (∀ k fn p len ret csum, Event.hash k fn p len ret csum ∈ (test_hash env spec hist).1 →
      ret < 0 →
      (∀ j fn2 p2 len2 ret2 csum2,
        Event.hash j fn2 p2 len2 ret2 csum2 ∈ (test_hash env spec hist).1 → j ≤ k) ∧
      (∀ name j, Event.vec_match name j ∈ (test_hash env spec hist).1 → j < k) ∧
      (∀ name j, Event.vec_mismatch name j ∈ (test_hash env spec hist).1 → j < k)) := by
  unfold test_hash
  have hret := test_hash_loop_ret env spec spec.count 0 false hist
  have hafter := test_hash_loop_after_fail env spec spec.count 0 false hist
  refine ⟨hret.2, ?_, ?_⟩
  · rw [← hret.2]
    rcases hret.1 with h | h <;> rw [h] <;> simp
  · intro k fn p len ret csum he hneg
    have hf : (Event.hash k fn p len ret csum).is_failed_hash = true := by
      simpa [Event.is_failed_hash] using hneg
    refine ⟨?_, ?_, ?_⟩
    · intro j fn2 p2 len2 ret2 csum2 he2
      exact (hafter _ he hf k rfl _ he2 j rfl).1
    · intro name j he2
      exact (hafter _ he hf k rfl _ he2 j rfl).2 rfl
    · intro name j he2
      exact (hafter _ he hf k rfl _ he2 j rfl).2 rfl

/-! ## Projections of the pieces of an iteration -/

theorem memcmp_eq_zero_iff (a b : List Nat) (n : Nat) :
    memcmp a b n = 0 ↔ a.take n = b.take n := by
  induction n generalizing a b with
  | zero => simp [memcmp]
  | succ n ih =>
    cases a with
    | nil =>
      cases b with
      | nil => simp [memcmp]
      | cons y ys => simp [memcmp]
    | cons x xs =>
      cases b with
      | nil => simp [memcmp]
      | cons y ys =>
        by_cases hxy : x = y
        · subst hxy
          simp [memcmp, ih]
        · have : (x : Int) - (y : Int) ≠ 0 := by omega
          simp [memcmp, hxy, this]

theorem hash_calls_append (a b : List Event) :
    hash_calls (a ++ b) = hash_calls a ++ hash_calls b := by
  simp [hash_calls, List.filterMap_append]

theorem verdicts_append (a b : List Event) :
    verdicts (a ++ b) = verdicts a ++ verdicts b := by
  simp [verdicts, List.filterMap_append]

theorem hash_calls_dispatch_pre (spec : hash_testspec) (header : Bool) :
    hash_calls (dispatch_pre spec header) = [] := by
  unfold dispatch_pre
  split_ifs <;> simp [hash_calls]

theorem verdicts_dispatch_pre (spec : hash_testspec) (header : Bool) :
    verdicts (dispatch_pre spec header) = [] := by
  unfold dispatch_pre
  split_ifs <;> simp [verdicts]

theorem hash_calls_print_hex (buf : List Nat) (size : Nat) :
    hash_calls (print_hex buf size) = [] := by
  simp [hash_calls, print_hex, List.filterMap_map]

theorem verdicts_print_hex (buf : List Nat) (size : Nat) :
    verdicts (print_hex buf size) = [] := by
  simp [verdicts, print_hex, List.filterMap_map]

theorem hash_calls_call_events (env : Env) (spec : hash_testspec) (i : Nat) (header : Bool)
    (hist : List Event) :
    hash_calls (call_events env spec i header hist) =
      [(i, spec.hash, (spec.vec i).plaintext, (spec.vec i).psize)] := by
  unfold call_events
  rw [hash_calls_append, hash_calls_dispatch_pre]
  simp [hash_calls]

theorem verdicts_call_events (env : Env) (spec : hash_testspec) (i : Nat) (header : Bool)
    (hist : List Event) :
    verdicts (call_events env spec i header hist) = [] := by
  unfold call_events
  rw [verdicts_append, verdicts_dispatch_pre]
  simp [verdicts]

theorem hash_calls_verdict_events (spec : hash_testspec) (i : Nat) (csum : List Nat) :
    hash_calls (verdict_events spec i csum) = [] := by
  unfold verdict_events
  split_ifs
  · simp [hash_calls]
  · simp only [hash_calls_append, hash_calls_print_hex]
    simp [hash_calls]

theorem verdicts_verdict_events (spec : hash_testspec) (i : Nat) (csum : List Nat) :
    verdicts (verdict_events spec i csum) =
      [(spec.name, i, decide (memcmp csum (spec.vec i).digest spec.digest_size = 0))] := by
  unfold verdict_events
  split_ifs with h
  · simp [verdicts, h]
  · simp only [verdicts_append, verdicts_print_hex]
    simp [verdicts, h]

/-! ## The dispatching path -/

/-- On an eligible specification whose hash function never fails, the loop
calls the hash function once per remaining vector and prints one verdict per
remaining vector, in index order, and returns 0. -/
theorem test_hash_loop_dispatch (env : Env) (spec : hash_testspec)
    (hcpu : ¬ (spec.cpu_flag ≠ 0 ∧ env.cpu_has_feature spec.cpu_flag = false))
    (hb : spec.backend ≠ 1)
    (hok : ∀ fn h p len, 0 ≤ (env.hash fn h p len).1)
    (n i : Nat) (header : Bool) (hist : List Event) :
    hash_calls (test_hash_loop env spec n i header hist).1 =
      (List.range' i n).map
        (fun j => (j, spec.hash, (spec.vec j).plaintext, (spec.vec j).psize)) ∧
    (verdicts (test_hash_loop env spec n i header hist).1).map (fun v => (v.1, v.2.1)) =
      (List.range' i n).map (fun j => (spec.name, j)) ∧
    (test_hash_loop env spec n i header hist).2 = 0 := by
  induction n generalizing i header hist with
  | zero => simp [test_hash_loop, hash_calls, verdicts]
  | succ n ih =>
    rcases test_hash_iter_cases env spec i header hist with h | h | h | h
    · exact absurd h.1 hcpu
    · exact absurd h.2.1 hb
    · exact absurd h.2.2.1 (not_lt.mpr (hok _ _ _ _))
    · rw [test_hash_loop_next env spec n i header hist _ _ h.2.2.2]
      obtain ⟨ih1, ih2, ih3⟩ := ih (i + 1) true
        (hist ++ (call_events env spec i header hist ++
          verdict_events spec i (call_result env spec i header hist).2))
      refine ⟨?_, ?_, ih3⟩
      · simp only [hash_calls_append, hash_calls_call_events, hash_calls_verdict_events, ih1]
        simp [List.range']
      · simp only [verdicts_append, verdicts_call_events, verdicts_verdict_events,
          List.map_append, ih2]
        simp [List.range']

/-- C2. Soft failure continues: on an eligible specification (cpu_flag is 0 or
reported by cpu_has_feature, and backend is not 1) with a hash function that
never returns a negative status, test_hash calls the hash function exactly
once per vector, for the indices 0..count-1 in increasing order, with the
plaintext and psize of that vector; it prints exactly one match or MISMATCH
line per vector in the same order; and it returns 0. -/
theorem test_hash_soft_failure_continues (env : Env) (spec : hash_testspec)
    (hist : List Event)
    (hcpu : spec.cpu_flag = 0 ∨ env.cpu_has_feature spec.cpu_flag = true)
    (hb : spec.backend ≠ 1)
    (hok : ∀ fn h p len, 0 ≤ (env.hash fn h p len).1) :
    hash_calls (test_hash env spec hist).1 =
      (List.range spec.count).map
        (fun i => (i, spec.hash, (spec.vec i).plaintext, (spec.vec i).psize)) ∧
    (verdicts (test_hash env spec hist).1).map (fun v => (v.1, v.2.1)) =
      (List.range spec.count).map (fun i => (spec.name, i)) ∧
    (test_hash env spec hist).2 = 0 := by
  have hcpu2 : ¬ (spec.cpu_flag ≠ 0 ∧ env.cpu_has_feature spec.cpu_flag = false) := by
    rintro ⟨h0, hf⟩
    rcases hcpu with h | h
    · exact h0 h
    · rw [hf] at h
      exact absurd h (by simp)
  unfold test_hash
  rw [List.range_eq_range']
  exact test_hash_loop_dispatch env spec hcpu2 hb hok spec.count 0 false hist

/-! ## The verdict of a dispatched vector -/

theorem vec_match_mem_verdict_events (spec : hash_testspec) (i j : Nat) (csum : List Nat)
    (name : String) :
    Event.vec_match name j ∈ verdict_events spec i csum ↔
      name = spec.name ∧ j = i ∧ memcmp csum (spec.vec i).digest spec.digest_size = 0 := by
  unfold verdict_events
  split_ifs with h
  · simp [h]
  · simp [h, print_hex]

theorem vec_mismatch_mem_verdict_events (spec : hash_testspec) (i j : Nat) (csum : List Nat)
    (name : String) :
    Event.vec_mismatch name j ∈ verdict_events spec i csum ↔
      name = spec.name ∧ j = i ∧ ¬ memcmp csum (spec.vec i).digest spec.digest_size = 0 := by
  unfold verdict_events
  split_ifs with h
  · simp [h]
  · simp [h, print_hex]

theorem not_verdict_mem_call_events (env : Env) (spec : hash_testspec) (i : Nat)
    (header : Bool) (hist : List Event) (e : Event) (hv : e.is_verdict = true) :
    e ∉ call_events env spec i header hist := by
  intro he
  rcases mem_call_events _ _ _ _ _ _ he with he | rfl | rfl
  · rcases mem_dispatch_pre _ _ _ he with rfl | rfl | rfl <;> simp [Event.is_verdict] at hv
  · simp [Event.is_verdict] at hv
  · simp [Event.is_verdict] at hv

theorem hash_mem_call_events (env : Env) (spec : hash_testspec) (i : Nat)
    (header : Bool) (hist : List Event) (j : Nat) (fn : HashFn) (p : Option (List Nat))
    (len : Nat) (ret : Int) (csum : List Nat)
    (he : Event.hash j fn p len ret csum ∈ call_events env spec i header hist) :
    j = i ∧ ret = (call_result env spec i header hist).1 ∧
      csum = (call_result env spec i header hist).2 := by
  rcases mem_call_events _ _ _ _ _ _ he with he | he | he
  · rcases mem_dispatch_pre _ _ _ he with h | h | h <;> simp at h
  · simp only [Event.hash.injEq] at he
    exact ⟨he.1, he.2.2.2.2.1, he.2.2.2.2.2⟩
  · simp at he

theorem hash_not_mem_verdict_events (spec : hash_testspec) (i : Nat) (c : List Nat)
    (j : Nat) (fn : HashFn) (p : Option (List Nat)) (len : Nat) (ret : Int) (csum : List Nat) :
    Event.hash j fn p len ret csum ∉ verdict_events spec i c := by
  intro he
  rcases mem_verdict_events _ _ _ _ he with h | h | h | h | h | ⟨b, h⟩ <;> simp at h

/-- Within one iteration, a hash call that did not fail is answered by the
match line exactly when memcmp finds the buffers equal, and by the MISMATCH
line exactly when it does not. -/
theorem test_hash_iter_verdict (env : Env) (spec : hash_testspec) (i : Nat) (header : Bool)
    (hist : List Event) (j : Nat) (fn : HashFn) (p : Option (List Nat)) (len : Nat)
    (ret : Int) (csum : List Nat)
    (he : Event.hash j fn p len ret csum ∈ (test_hash_iter env spec i header hist).1)
    (hret : ¬ ret < 0) :
    (Event.vec_match spec.name j ∈ (test_hash_iter env spec i header hist).1 ↔
      memcmp csum (spec.vec j).digest spec.digest_size = 0) ∧
    (Event.vec_mismatch spec.name j ∈ (test_hash_iter env spec i header hist).1 ↔
      ¬ memcmp csum (spec.vec j).digest spec.digest_size = 0) := by
  rcases test_hash_iter_cases env spec i header hist with h | h | h | h
  · rw [h.2] at he
    simp at he
  · rw [h.2.2] at he
    simp at he
  · obtain ⟨_, _, hneg, heq⟩ := h
    rw [heq] at he
    simp only [List.mem_append, List.mem_singleton] at he
    rcases he with he | he
    · obtain ⟨_, hr, _⟩ := hash_mem_call_events _ _ _ _ _ _ _ _ _ _ _ he
      rw [hr] at hret
      exact absurd hneg hret
    · simp at he
  · obtain ⟨_, _, _, heq⟩ := h
    rw [heq] at he ⊢
    rcases List.mem_append.mp he with he | he
    · obtain ⟨hj, _, hc⟩ := hash_mem_call_events _ _ _ _ _ _ _ _ _ _ _ he
      subst hj
      rw [← hc]
      constructor
      · rw [List.mem_append, vec_match_mem_verdict_events]
        constructor
        · rintro (h | h)
          · exact absurd h (not_verdict_mem_call_events _ _ _ _ _ _ rfl)
          · exact h.2.2
        · intro h
          exact Or.inr ⟨rfl, rfl, h⟩
      · rw [List.mem_append, vec_mismatch_mem_verdict_events]
        constructor
        · rintro (h | h)
          · exact absurd h (not_verdict_mem_call_events _ _ _ _ _ _ rfl)
          · exact h.2.2
        · intro h
          exact Or.inr ⟨rfl, rfl, h⟩
    · exact absurd he (hash_not_mem_verdict_events _ _ _ _ _ _ _ _ _)

/-- The same over the whole loop. -/
theorem test_hash_loop_verdict (env : Env) (spec : hash_testspec) (n i : Nat) (header : Bool)
    (hist : List Event) (j : Nat) (fn : HashFn) (p : Option (List Nat)) (len : Nat)
    (ret : Int) (csum : List Nat)
    (he : Event.hash j fn p len ret csum ∈ (test_hash_loop env spec n i header hist).1)
    (hret : ¬ ret < 0) :
    (Event.vec_match spec.name j ∈ (test_hash_loop env spec n i header hist).1 ↔
      memcmp csum (spec.vec j).digest spec.digest_size = 0) ∧
    (Event.vec_mismatch spec.name j ∈ (test_hash_loop env spec n i header hist).1 ↔
      ¬ memcmp csum (spec.vec j).digest spec.digest_size = 0) := by
  induction n generalizing i header hist with
  | zero => simp [test_hash_loop] at he
  | succ n ih =>
    have hiter := test_hash_iter_events env spec i header hist
    rcases test_hash_loop_succ env spec n i header hist with ⟨v, _, heq⟩ | ⟨_, heq⟩
    · rw [heq] at he ⊢
      exact test_hash_iter_verdict env spec i header hist j fn p len ret csum he hret
    · rw [heq] at he ⊢
      have hge := test_hash_loop_index_ge env spec n (i + 1)
        (test_hash_iter env spec i header hist).2.1
        (hist ++ (test_hash_iter env spec i header hist).1)
      rcases List.mem_append.mp he with he | he
      · have hj : j = i := hiter.1 _ he j rfl
        have hv := test_hash_iter_verdict env spec i header hist j fn p len ret csum he hret
        have hm : ∀ e : Event, e.index = some j →
            (e ∈ (test_hash_iter env spec i header hist).1 ++
              (test_hash_loop env spec n (i + 1) (test_hash_iter env spec i header hist).2.1
                (hist ++ (test_hash_iter env spec i header hist).1)).1 ↔
             e ∈ (test_hash_iter env spec i header hist).1) := by
          intro e hidx
          constructor
          · intro h
            rcases List.mem_append.mp h with h | h
            · exact h
            · have := hge _ h j hidx
              omega
          · exact fun h => List.mem_append_left _ h
        exact ⟨(hm (Event.vec_match spec.name j) rfl).trans hv.1,
          (hm (Event.vec_mismatch spec.name j) rfl).trans hv.2⟩
      · have hj : i + 1 ≤ j := hge _ he j rfl
        have hv := ih _ _ _ he
        have hm : ∀ e : Event, e.index = some j →
            (e ∈ (test_hash_iter env spec i header hist).1 ++
              (test_hash_loop env spec n (i + 1) (test_hash_iter env spec i header hist).2.1
                (hist ++ (test_hash_iter env spec i header hist).1)).1 ↔
             e ∈ (test_hash_loop env spec n (i + 1) (test_hash_iter env spec i header hist).2.1
                (hist ++ (test_hash_iter env spec i header hist).1)).1) := by
          intro e hidx
          constructor
          · intro h
            rcases List.mem_append.mp h with h | h
            · have := hiter.1 _ h j hidx
              omega
            · exact h
          · exact fun h => List.mem_append_right _ h
        exact ⟨(hm (Event.vec_match spec.name j) rfl).trans hv.1,
          (hm (Event.vec_mismatch spec.name j) rfl).trans hv.2⟩

/-- C3. Verdict criterion: for a hash call of test_hash on vector i that
returned a non-negative status and left csum in the output buffer, where the
expected digest of the vector has at least digest_size bytes, the line
"match" for vector i is printed exactly when the first digest_size bytes of
csum equal the first digest_size bytes of the expected digest of the vector,
and the line "MISMATCH" exactly when they differ; two output buffers that
agree on their first digest_size bytes get the same verdict. -/
theorem test_hash_verdict_criterion (env : Env) (spec : hash_testspec) (hist : List Event)
    (i : Nat) (fn : HashFn) (p : Option (List Nat)) (len : Nat) (ret : Int) (csum : List Nat)
    (hcall : Event.hash i fn p len ret csum ∈ (test_hash env spec hist).1)
    (hret : 0 ≤ ret)
    (hdig : spec.digest_size ≤ (spec.vec i).digest.length) :
    (Event.vec_match spec.name i ∈ (test_hash env spec hist).1 ↔
      csum.take spec.digest_size = (spec.vec i).digest.take spec.digest_size) ∧
    (Event.vec_mismatch spec.name i ∈ (test_hash env spec hist).1 ↔
      csum.take spec.digest_size ≠ (spec.vec i).digest.take spec.digest_size) ∧
    (∀ other : List Nat, other.take spec.digest_size = csum.take spec.digest_size →
      verdicts (verdict_events spec i other) = verdicts (verdict_events spec i csum)) ∧
    ((spec.vec i).digest.take spec.digest_size).length = spec.digest_size := by
  have h := test_hash_loop_verdict env spec spec.count 0 false hist i fn p len ret csum
    hcall (not_lt.mpr hret)
  unfold test_hash
  refine ⟨?_, ?_, ?_, ?_⟩
  · rw [h.1, memcmp_eq_zero_iff]
  · rw [h.2, memcmp_eq_zero_iff]
  · intro other hother
    simp only [verdicts_verdict_events, memcmp_eq_zero_iff, hother]
  · rw [List.length_take]
    exact Nat.min_eq_left hdig

/-- Witness of C1 on the CRC32C-ref specification with a hash function whose
second call fails: test_hash returns 1 and prints no verdict for vector 1. -/
theorem test_hash_hard_failure_witness :
    (test_hash env_second_fails (sample_spec 0) []).2 = 1 ∧
    (∀ name j, Event.vec_match name j ∈ (test_hash env_second_fails (sample_spec 0) []).1 →
      j < 1) ∧
    (∀ name j, Event.vec_mismatch name j ∈ (test_hash env_second_fails (sample_spec 0) []).1 →
      j < 1) :=
  ⟨by decide,
   ((test_hash_hard_failure env_second_fails (sample_spec 0) []).2.2 1
      HashFn.hash_crc32c (some [0x61, 0x62, 0x63, 0x64, 0x65, 0x66, 0x67]) 7 (-1) []
      (by decide) (by decide)).2⟩

/-- Witness of C2 on the CRC32C-ref specification with a hash function that
always succeeds. -/
theorem test_hash_soft_failure_continues_witness :
    hash_calls (test_hash env_zero (sample_spec 0) []).1 =
      [(0, HashFn.hash_crc32c, none, 0),
       (1, HashFn.hash_crc32c, some [0x61, 0x62, 0x63, 0x64, 0x65, 0x66, 0x67], 7)] ∧
    (verdicts (test_hash env_zero (sample_spec 0) []).1).map (fun v => (v.1, v.2.1)) =
      [("CRC32C-ref", 0), ("CRC32C-ref", 1)] ∧
    (test_hash env_zero (sample_spec 0) []).2 = 0 :=
  test_hash_soft_failure_continues env_zero (sample_spec 0) [] (Or.inl (by decide))
    (by decide) (fun _ _ _ _ => Int.le_refl 0)

/-- Witness of C3 on vector 1 of the CRC32C-ref specification: the expected
digest has digest_size bytes, and the output buffer of zero bytes differs from
it, so MISMATCH is printed. -/
theorem test_hash_verdict_criterion_witness :
    Event.hash 1 HashFn.hash_crc32c (some [0x61, 0x62, 0x63, 0x64, 0x65, 0x66, 0x67]) 7 0
        (List.replicate 32 0) ∈ (test_hash env_zero (sample_spec 0) []).1 ∧
      (sample_spec 0).digest_size ≤ ((sample_spec 0).vec 1).digest.length ∧
      Event.vec_mismatch "CRC32C-ref" 1 ∈ (test_hash env_zero (sample_spec 0) []).1 :=
  ⟨by decide, by decide,
   ((test_hash_verdict_criterion env_zero (sample_spec 0) [] 1 HashFn.hash_crc32c
      (some [0x61, 0x62, 0x63, 0x64, 0x65, 0x66, 0x67]) 7 0 (List.replicate 32 0)
      (by decide) (by decide) (by decide)).2.1).mpr (by decide)⟩

/-- C4. CPU-feature skip: when cpu_flag is non-zero and cpu_has_feature does
not report it, whatever the backend field, test_hash performs exactly
spec.count events, each the line "<name> skipped, no CPU support", and returns
0; so it never calls the hash function, cpu_set_level or hash_init_accel and
prints no header and no match or MISMATCH line. -/
theorem test_hash_cpu_feature_skip (env : Env) (spec : hash_testspec) (hist : List Event)
    (hflag : spec.cpu_flag ≠ 0) (hcpu : env.cpu_has_feature spec.cpu_flag = false) :
    test_hash env spec hist = (List.replicate spec.count (Event.skipped spec.name), 0) ∧
    (test_hash env spec hist).1.map Event.stdout =
      List.replicate spec.count (spec.name ++ " skipped, no CPU support\n") ∧
    hash_calls (test_hash env spec hist).1 = [] ∧
    verdicts (test_hash env spec hist).1 = [] ∧
    (∀ e ∈ (test_hash env spec hist).1,
      e.is_header = false ∧ (∀ flag, e ≠ Event.cpu_set_level flag) ∧
        e ≠ Event.hash_init_accel) := by
  have h : test_hash env spec hist =
      (List.replicate spec.count (Event.skipped spec.name), 0) :=
    test_hash_loop_cpu_skip env spec ⟨hflag, hcpu⟩ spec.count 0 false hist
  rw [h]
  refine ⟨rfl, ?_, ?_, ?_, ?_⟩
  · simp [Event.stdout]
  · simp [hash_calls]
  · simp [verdicts]
  · intro e he
    obtain ⟨_, rfl⟩ := List.mem_replicate.mp he
    simp [Event.is_header]

/-- Witness of C4 on the CRC32C-NI specification when no CPU feature is
detected. -/
theorem test_hash_cpu_feature_skip_witness :
    test_hash env_fail (sample_spec 1) [] =
      ([Event.skipped "CRC32C-NI", Event.skipped "CRC32C-NI"], 0) :=
  (test_hash_cpu_feature_skip env_fail (sample_spec 1) [] (by decide) (by decide)).1

/-- C5. Unavailable-backend skip: when the backend field is 1, for every
detected feature set and every hash function, test_hash never calls the hash
function, prints no header and no match or MISMATCH line, and returns 0. -/
theorem test_hash_backend_skip (env : Env) (spec : hash_testspec) (hist : List Event)
    (hb : spec.backend = 1) :
    hash_calls (test_hash env spec hist).1 = [] ∧
    verdicts (test_hash env spec hist).1 = [] ∧
    (∀ e ∈ (test_hash env spec hist).1, e.is_hash = false ∧ e.is_header = false ∧
      e.is_verdict = false) ∧
    (test_hash env spec hist).2 = 0 := by
  by_cases hcpu : spec.cpu_flag ≠ 0 ∧ env.cpu_has_feature spec.cpu_flag = false
  · have h : test_hash env spec hist =
        (List.replicate spec.count (Event.skipped spec.name), 0) :=
      test_hash_loop_cpu_skip env spec hcpu spec.count 0 false hist
    rw [h]
    refine ⟨by simp [hash_calls], by simp [verdicts], ?_, rfl⟩
    intro e he
    obtain ⟨_, rfl⟩ := List.mem_replicate.mp he
    exact ⟨rfl, rfl, rfl⟩
  · have h : test_hash env spec hist = ([], 0) :=
      test_hash_loop_backend_skip env spec hcpu hb spec.count 0 false hist
    rw [h]
    simp [hash_calls, verdicts]

/-- Witness of C5 on the SHA256-gcrypt specification of a build without
libgcrypt, with a hash function that would fail if it were called. -/
theorem test_hash_backend_skip_witness :
    (sample_spec 4).backend = 1 ∧ hash_calls (test_hash env_fail (sample_spec 4) []).1 = [] ∧
      (test_hash env_fail (sample_spec 4) []).2 = 0 :=
  ⟨by decide, (test_hash_backend_skip env_fail (sample_spec 4) [] (by decide)).1,
    (test_hash_backend_skip env_fail (sample_spec 4) [] (by decide)).2.2.2⟩

/-! ## The active CPU level -/

theorem level_after_append (l : Level) (a b : List Event) :
    level_after l (a ++ b) = level_after (level_after l a) b := by
  simp [level_after]

/-- Events that are neither cpu_set_level nor cpu_reset_level leave the level
alone. -/
theorem level_after_inert (es : List Event)
    (h : ∀ e ∈ es, (∀ flag, e ≠ Event.cpu_set_level flag) ∧ e ≠ Event.cpu_reset_level)
    (l : Level) : level_after l es = l := by
  induction es generalizing l with
  | nil => rfl
  | cons e es ih =>
    have he := h e (List.mem_cons_self _ _)
    have hstep : Level.step l e = l := by
      cases e <;> first | rfl | exact absurd rfl (he.1 _) | exact absurd rfl he.2
    show level_after (Level.step l e) es = l
    rw [hstep]
    exact ih (fun e2 h2 => h e2 (List.mem_cons_of_mem _ h2)) l

theorem level_after_call_events (env : Env) (spec : hash_testspec) (i : Nat) (header : Bool)
    (hist : List Event) (l : Level) :
    level_after l (call_events env spec i header hist) = Level.reset := by
  unfold call_events
  rw [level_after_append]
  rfl

theorem level_after_verdict_events (spec : hash_testspec) (i : Nat) (csum : List Nat)
    (l : Level) : level_after l (verdict_events spec i csum) = l := by
  apply level_after_inert
  intro e he
  rcases mem_verdict_events _ _ _ _ he with rfl | rfl | rfl | rfl | rfl | ⟨b, rfl⟩ <;> simp

/-- An iteration leaves the level as it found it (the skip paths) or in the
reset state (the dispatching paths). -/
theorem level_after_test_hash_iter (env : Env) (spec : hash_testspec) (i : Nat)
    (header : Bool) (hist : List Event) (l : Level) :
    level_after l (test_hash_iter env spec i header hist).1 = l ∨
      level_after l (test_hash_iter env spec i header hist).1 = Level.reset := by
  rcases test_hash_iter_cases env spec i header hist with h | h | h | h
  · rw [h.2]
    exact Or.inl rfl
  · rw [h.2.2]
    exact Or.inl rfl
  · rw [h.2.2.2, level_after_append, level_after_call_events]
    exact Or.inr rfl
  · rw [h.2.2.2, level_after_append, level_after_call_events, level_after_verdict_events]
    exact Or.inr rfl

theorem level_after_test_hash_loop (env : Env) (spec : hash_testspec) (n i : Nat)
    (header : Bool) (hist : List Event) (l : Level) :
    level_after l (test_hash_loop env spec n i header hist).1 = l ∨
      level_after l (test_hash_loop env spec n i header hist).1 = Level.reset := by
  induction n generalizing i header hist l with
  | zero => exact Or.inl rfl
  | succ n ih =>
    rcases test_hash_loop_succ env spec n i header hist with ⟨v, _, heq⟩ | ⟨_, heq⟩
    · rw [heq]
      exact level_after_test_hash_iter env spec i header hist l
    · rw [heq]
      show level_after l (_ ++ _) = l ∨ level_after l (_ ++ _) = Level.reset
      rw [level_after_append]
      rcases level_after_test_hash_iter env spec i header hist l with h | h
      · rw [h]
        exact ih _ _ _ l
      · rw [h]
        rcases ih (i + 1) (test_hash_iter env spec i header hist).2.1
          (hist ++ (test_hash_iter env spec i header hist).1) Level.reset with h2 | h2
        · exact Or.inr h2
        · exact Or.inr h2

theorem reset_follows_hash_inert (a b : List Event) (h : ∀ e ∈ a, e.is_hash = false) :
    reset_follows_hash (a ++ b) = reset_follows_hash b := by
  induction a with
  | nil => rfl
  | cons e a ih =>
    have he := h e (List.mem_cons_self _ _)
    have ih2 := ih (fun e2 h2 => h e2 (List.mem_cons_of_mem _ h2))
    cases e <;> first | (simpa [reset_follows_hash] using ih2) | (simp [Event.is_hash] at he)

theorem reset_follows_hash_call_events (env : Env) (spec : hash_testspec) (i : Nat)
    (header : Bool) (hist : List Event) (b : List Event) :
    reset_follows_hash (call_events env spec i header hist ++ b) = reset_follows_hash b := by
  unfold call_events
  rw [List.append_assoc, reset_follows_hash_inert]
  · simp [reset_follows_hash]
  · intro e he
    rcases mem_dispatch_pre _ _ _ he with rfl | rfl | rfl <;> rfl

theorem reset_follows_hash_test_hash_iter (env : Env) (spec : hash_testspec) (i : Nat)
    (header : Bool) (hist : List Event) (b : List Event) :
    reset_follows_hash ((test_hash_iter env spec i header hist).1 ++ b) =
      reset_follows_hash b := by
  rcases test_hash_iter_cases env spec i header hist with h | h | h | h
  · rw [h.2]
    simp [reset_follows_hash]
  · rw [h.2.2]
    rfl
  · rw [h.2.2.2]
    simp only [List.append_assoc]
    rw [reset_follows_hash_call_events]
    simp [reset_follows_hash]
  · rw [h.2.2.2]
    simp only [List.append_assoc]
    rw [reset_follows_hash_call_events, reset_follows_hash_inert]
    intro e he
    rcases mem_verdict_events _ _ _ _ he with rfl | rfl | rfl | rfl | rfl | ⟨b, rfl⟩ <;> rfl

theorem reset_follows_hash_test_hash_loop (env : Env) (spec : hash_testspec) (n i : Nat)
    (header : Bool) (hist : List Event) :
    reset_follows_hash (test_hash_loop env spec n i header hist).1 = true := by
  induction n generalizing i header hist with
  | zero => rfl
  | succ n ih =>
    rcases test_hash_loop_succ env spec n i header hist with ⟨v, _, heq⟩ | ⟨_, heq⟩
    · rw [heq]
      have := reset_follows_hash_test_hash_iter env spec i header hist []
      rw [List.append_nil] at this
      exact this
    · rw [heq]
      show reset_follows_hash (_ ++ _) = true
      rw [reset_follows_hash_test_hash_iter]
      exact ih _ _ _

/-- C6. Scoped release on all paths: in the trace of test_hash every call of
the hash function is directly followed by cpu_reset_level, before the error
report or the verdict; and for every specification, detected feature set and
hash function (failing or not), if the active CPU level is in its reset state
when test_hash is entered, it is in its reset state when test_hash returns. -/
theorem test_hash_releases_level (env : Env) (spec : hash_testspec) (hist : List Event) :
    reset_follows_hash (test_hash env spec hist).1 = true ∧
    level_after Level.reset (test_hash env spec hist).1 = Level.reset := by
  unfold test_hash
  refine ⟨reset_follows_hash_test_hash_loop env spec spec.count 0 false hist, ?_⟩
  rcases level_after_test_hash_loop env spec spec.count 0 false hist Level.reset with h | h
  · exact h
  · exact h

/-- C7. The exit status of main does not reflect a hard failure: with a hash
function that returns -1, test_hash returns 1 on the first specification of
the registry, yet main returns 0; indeed main returns 0 in every
configuration and environment. -/
theorem main_ignores_hard_failure :
    (test_hash env_fail (sample_spec 0) (main_setup sample_cfg)).2 = 1 ∧
    (main sample_cfg env_fail).2 = 0 ∧
    (∀ (cfg : Config) (env : Env), (main cfg env).2 = 0) :=
  ⟨by decide, rfl, fun _ _ => rfl⟩

/-! ## The registry -/

/-- Every entry of the registry belongs to one of four families, which fix its
hash function, vector table, vector count and digest size. -/
theorem test_spec_families (cfg : Config) (s : hash_testspec) (h : s ∈ test_spec cfg) :
    (s.hash = HashFn.hash_crc32c ∧ s.testvec = crc32c_tv ∧ s.count = crc32c_tv.length ∧
      s.digest_size = 4) ∨
    (s.hash = HashFn.hash_xxhash ∧ s.testvec = xxhash64_tv ∧ s.count = xxhash64_tv.length ∧
      s.digest_size = 8) ∨
    (s.hash = HashFn.hash_sha256 ∧ s.testvec = sha256_tv ∧ s.count = sha256_tv.length ∧
      s.digest_size = 32) ∨
    (s.hash = HashFn.hash_blake2b ∧ s.testvec = blake2b_256_tv ∧
      s.count = blake2b_256_tv.length ∧ s.digest_size = 32) := by
  simp only [test_spec, List.mem_cons, List.mem_singleton, List.not_mem_nil, or_false] at h
  rcases h with rfl | rfl | rfl | rfl | rfl | rfl | rfl | rfl | rfl | rfl | rfl | rfl | rfl |
    rfl | rfl
  · exact Or.inl ⟨rfl, rfl, rfl, rfl⟩
  · exact Or.inl ⟨rfl, rfl, rfl, rfl⟩
  · exact Or.inr (Or.inl ⟨rfl, rfl, rfl, rfl⟩)
  · exact Or.inr (Or.inr (Or.inl ⟨rfl, rfl, rfl, rfl⟩))
  · exact Or.inr (Or.inr (Or.inl ⟨rfl, rfl, rfl, rfl⟩))
  · exact Or.inr (Or.inr (Or.inl ⟨rfl, rfl, rfl, rfl⟩))
  · exact Or.inr (Or.inr (Or.inl ⟨rfl, rfl, rfl, rfl⟩))
  · exact Or.inr (Or.inr (Or.inl ⟨rfl, rfl, rfl, rfl⟩))
  · exact Or.inr (Or.inr (Or.inr ⟨rfl, rfl, rfl, rfl⟩))
  · exact Or.inr (Or.inr (Or.inr ⟨rfl, rfl, rfl, rfl⟩))
  · exact Or.inr (Or.inr (Or.inr ⟨rfl, rfl, rfl, rfl⟩))
  · exact Or.inr (Or.inr (Or.inr ⟨rfl, rfl, rfl, rfl⟩))
  · exact Or.inr (Or.inr (Or.inr ⟨rfl, rfl, rfl, rfl⟩))
  · exact Or.inr (Or.inr (Or.inr ⟨rfl, rfl, rfl, rfl⟩))
  · exact Or.inr (Or.inr (Or.inr ⟨rfl, rfl, rfl, rfl⟩))

theorem crc32c_tv_digest_length : ∀ v ∈ crc32c_tv, v.digest.length = 4 := by
  decide

theorem xxhash64_tv_digest_length : ∀ v ∈ xxhash64_tv, v.digest.length = 8 := by
  decide

theorem sha256_tv_digest_length : ∀ v ∈ sha256_tv, v.digest.length = 32 := by
  decide

theorem blake2b_256_tv_digest_length : ∀ v ∈ blake2b_256_tv, v.digest.length = 32 := by
  decide

/-- Every hash call of the loop is made on the function of the specification,
with the plaintext and length of the vector of its index. -/
theorem test_hash_loop_hash_args (env : Env) (spec : hash_testspec) (n i : Nat)
    (header : Bool) (hist : List Event) (j : Nat) (fn : HashFn) (p : Option (List Nat))
    (len : Nat) (ret : Int) (csum : List Nat)
    (he : Event.hash j fn p len ret csum ∈ (test_hash_loop env spec n i header hist).1) :
    fn = spec.hash ∧ p = (spec.vec j).plaintext ∧ len = (spec.vec j).psize := by
  induction n generalizing i header hist with
  | zero => simp [test_hash_loop] at he
  | succ n ih =>
    have hiter : Event.hash j fn p len ret csum ∈ (test_hash_iter env spec i header hist).1 →
        fn = spec.hash ∧ p = (spec.vec j).plaintext ∧ len = (spec.vec j).psize := by
      intro he
      rcases test_hash_iter_cases env spec i header hist with h | h | h | h
      · rw [h.2] at he
        simp at he
      · rw [h.2.2] at he
        simp at he
      · rw [h.2.2.2] at he
        simp only [List.mem_append, List.mem_singleton] at he
        rcases he with he | he
        · rcases mem_call_events _ _ _ _ _ _ he with he | he | he
          · rcases mem_dispatch_pre _ _ _ he with h | h | h <;> simp at h
          · simp only [Event.hash.injEq] at he
            obtain ⟨rfl, rfl, rfl, rfl, _, _⟩ := he
            exact ⟨rfl, rfl, rfl⟩
          · simp at he
        · simp at he
      · rw [h.2.2.2] at he
        rcases List.mem_append.mp he with he | he
        · rcases mem_call_events _ _ _ _ _ _ he with he | he | he
          · rcases mem_dispatch_pre _ _ _ he with h | h | h <;> simp at h
          · simp only [Event.hash.injEq] at he
            obtain ⟨rfl, rfl, rfl, rfl, _, _⟩ := he
            exact ⟨rfl, rfl, rfl⟩
          · simp at he
        · exact absurd he (hash_not_mem_verdict_events _ _ _ _ _ _ _ _ _)
    rcases test_hash_loop_succ env spec n i header hist with ⟨v, _, heq⟩ | ⟨_, heq⟩
    · rw [heq] at he
      exact hiter he
    · rw [heq] at he
      rcases List.mem_append.mp he with he | he
      · exact hiter he
      · exact ih _ _ _ he

/-- A vector that got a match line was hashed with a non-negative status and
an output buffer whose first digest_size bytes are the expected digest. -/
theorem test_hash_match_digest (env : Env) (spec : hash_testspec) (hist : List Event)
    (i : Nat) (fn : HashFn) (p : Option (List Nat)) (len : Nat) (ret : Int) (csum : List Nat)
    (hcall : Event.hash i fn p len ret csum ∈ (test_hash env spec hist).1)
    (hmatch : Event.vec_match spec.name i ∈ (test_hash env spec hist).1) :
    csum.take spec.digest_size = (spec.vec i).digest.take spec.digest_size := by
  have hret : ¬ ret < 0 := by
    intro hneg
    have hf : (Event.hash i fn p len ret csum).is_failed_hash = true := by
      simpa [Event.is_failed_hash] using hneg
    have := (test_hash_loop_after_fail env spec spec.count 0 false hist _ hcall hf i rfl
      _ hmatch i rfl).2 rfl
    omega
  have h := test_hash_loop_verdict env spec spec.count 0 false hist i fn p len ret csum
    hcall hret
  exact (memcmp_eq_zero_iff _ _ _).mp (h.1.mp hmatch)

/-- The sample entries are entries of the registry. -/
theorem sample_spec_mem (k : Nat) (hk : k < (test_spec sample_cfg).length) :
    sample_spec k ∈ test_spec sample_cfg := by
  unfold sample_spec
  rw [List.getD_eq_getElem _ _ hk]
  exact List.getElem_mem _

/-- C8. Cross-backend determinism as the oracle enforces it: two entries of
test_spec with the same hash function have the same vector table, vector count
and digest_size (there are 2 such entries for CRC32C, 5 for SHA256 and 7 for
BLAKE2); hence when runs of test_hash on two such entries both hash vector i
and both print "match" for it, the two calls received the same plaintext and
length and left output buffers that agree on their first digest_size bytes. -/
theorem test_spec_cross_backend (cfg : Config) (s1 s2 : hash_testspec)
    (h1 : s1 ∈ test_spec cfg) (h2 : s2 ∈ test_spec cfg) (hfn : s1.hash = s2.hash) :
    (s1.testvec = s2.testvec ∧ s1.count = s2.count ∧ s1.digest_size = s2.digest_size) ∧
    ((test_spec cfg).countP (fun s => s.hash = HashFn.hash_crc32c) = 2 ∧
      (test_spec cfg).countP (fun s => s.hash = HashFn.hash_sha256) = 5 ∧
      (test_spec cfg).countP (fun s => s.hash = HashFn.hash_blake2b) = 7) ∧
    (∀ (env1 env2 : Env) (hist1 hist2 : List Event) (i : Nat)
      (fn1 fn2 : HashFn) (p1 p2 : Option (List Nat)) (len1 len2 : Nat) (ret1 ret2 : Int)
      (csum1 csum2 : List Nat),
      Event.hash i fn1 p1 len1 ret1 csum1 ∈ (test_hash env1 s1 hist1).1 →
      Event.hash i fn2 p2 len2 ret2 csum2 ∈ (test_hash env2 s2 hist2).1 →
      Event.vec_match s1.name i ∈ (test_hash env1 s1 hist1).1 →
      Event.vec_match s2.name i ∈ (test_hash env2 s2 hist2).1 →
      fn1 = fn2 ∧ p1 = p2 ∧ len1 = len2 ∧
        csum1.take s1.digest_size = csum2.take s1.digest_size) := by
  have hsame : s1.testvec = s2.testvec ∧ s1.count = s2.count ∧
      s1.digest_size = s2.digest_size := by
    rcases test_spec_families cfg s1 h1 with ⟨a1, b1, c1, d1⟩ | ⟨a1, b1, c1, d1⟩ |
        ⟨a1, b1, c1, d1⟩ | ⟨a1, b1, c1, d1⟩ <;>
      rcases test_spec_families cfg s2 h2 with ⟨a2, b2, c2, d2⟩ | ⟨a2, b2, c2, d2⟩ |
        ⟨a2, b2, c2, d2⟩ | ⟨a2, b2, c2, d2⟩ <;>
      first
        | exact ⟨b1.trans b2.symm, c1.trans c2.symm, d1.trans d2.symm⟩
        | (rw [a1, a2] at hfn; exact absurd hfn (by decide))
  refine ⟨hsame, ⟨rfl, rfl, rfl⟩, ?_⟩
  intro env1 env2 hist1 hist2 i fn1 fn2 p1 p2 len1 len2 ret1 ret2 csum1 csum2 hc1 hc2 hm1 hm2
  have ha1 := test_hash_loop_hash_args env1 s1 s1.count 0 false hist1 _ _ _ _ _ _ hc1
  have ha2 := test_hash_loop_hash_args env2 s2 s2.count 0 false hist2 _ _ _ _ _ _ hc2
  have hd1 := test_hash_match_digest env1 s1 hist1 i fn1 p1 len1 ret1 csum1 hc1 hm1
  have hd2 := test_hash_match_digest env2 s2 hist2 i fn2 p2 len2 ret2 csum2 hc2 hm2
  have hvec : s1.vec i = s2.vec i := by
    unfold hash_testspec.vec
    rw [hsame.1]
  refine ⟨?_, ?_, ?_, ?_⟩
  · rw [ha1.1, ha2.1, hfn]
  · rw [ha1.2.1, ha2.2.1, hvec]
  · rw [ha1.2.2, ha2.2.2, hvec]
  · rw [hd1, hsame.2.2, hd2, hvec]

/-- Witness of C8 on the two CRC32C entries of the registry. -/
theorem test_spec_cross_backend_witness :
    (sample_spec 0).testvec = (sample_spec 1).testvec ∧
      (sample_spec 0).count = (sample_spec 1).count ∧
      (sample_spec 0).digest_size = (sample_spec 1).digest_size :=
  (test_spec_cross_backend sample_cfg (sample_spec 0) (sample_spec 1)
    (sample_spec_mem 0 (by decide)) (sample_spec_mem 1 (by decide)) (by decide)).1

/-- C9. Registry invariant: every entry of test_spec has the digest size of
its algorithm (4 for the CRC32C entries, 8 for XXHASH, 32 for the SHA256
entries, 32 for the BLAKE2 entries), and every vector of its table carries an
expected digest of at least digest_size bytes. -/
theorem test_spec_registry_invariant (cfg : Config) (s : hash_testspec)
    (h : s ∈ test_spec cfg) :
    (s.hash = HashFn.hash_crc32c → s.digest_size = 4) ∧
    (s.hash = HashFn.hash_xxhash → s.digest_size = 8) ∧
    (s.hash = HashFn.hash_sha256 → s.digest_size = 32) ∧
    (s.hash = HashFn.hash_blake2b → s.digest_size = 32) ∧
    (∀ v ∈ s.testvec, s.digest_size ≤ v.digest.length) := by
  rcases test_spec_families cfg s h with ⟨a, b, _, d⟩ | ⟨a, b, _, d⟩ | ⟨a, b, _, d⟩ |
      ⟨a, b, _, d⟩ <;>
    rw [a, b, d] <;> refine ⟨?_, ?_, ?_, ?_, ?_⟩ <;>
    first
      | (intro _; rfl)
      | (intro hc; exact absurd hc (by decide))
      | (intro v hv; exact le_of_eq (crc32c_tv_digest_length v hv).symm)
      | (intro v hv; exact le_of_eq (xxhash64_tv_digest_length v hv).symm)
      | (intro v hv; exact le_of_eq (sha256_tv_digest_length v hv).symm)
      | (intro v hv; exact le_of_eq (blake2b_256_tv_digest_length v hv).symm)

/-- Witness of C9 on the XXHASH entry of the registry. -/
theorem test_spec_registry_invariant_witness :
    (sample_spec 2).digest_size = 8 ∧
      ∀ v ∈ (sample_spec 2).testvec, (sample_spec 2).digest_size ≤ v.digest.length :=
  ⟨(test_spec_registry_invariant sample_cfg (sample_spec 2)
      (sample_spec_mem 2 (by decide))).2.1 (by decide),
   (test_spec_registry_invariant sample_cfg (sample_spec 2)
      (sample_spec_mem 2 (by decide))).2.2.2.2⟩

/-- C10, as stated, fails: the digest recorded for the input "abc" in
sha256_tv, written as lower-case hexadecimal without separators, is not the
63-digit string of the claim. -/
theorem sha256_abc_digest_not_as_claimed :
    (sha256_tv.getD 1 default).plaintext = some [0x61, 0x62, 0x63] ∧
    hex_string (sha256_tv.getD 1 default).digest ≠
      "ba7816bf8f01cfea414140de5dae2223b00361a39617a9cb410ff61f20015ad" := by
  decide

/-- C10, amended. The vector of sha256_tv for the 3-byte input "abc" records
the expected digest that reads, in lower-case hexadecimal without separators,
ba7816bf8f01cfea414140de5dae2223b00361a396177a9cb410ff61f20015ad; and for
every SHA256 entry of the registry, a hash call of test_hash on that vector
with a non-negative status is reported "match" exactly when the first 32 bytes
it left in the output buffer are that digest. -/
theorem sha256_abc_digest :
    (sha256_tv.getD 1 default).plaintext = some [0x61, 0x62, 0x63] ∧
    (sha256_tv.getD 1 default).psize = 3 ∧
    hex_string (sha256_tv.getD 1 default).digest =
      "ba7816bf8f01cfea414140de5dae2223b00361a396177a9cb410ff61f20015ad" ∧
    (∀ (cfg : Config) (s : hash_testspec), s ∈ test_spec cfg → s.hash = HashFn.hash_sha256 →
      ∀ (env : Env) (hist : List Event) (fn : HashFn) (p : Option (List Nat)) (len : Nat)
        (ret : Int) (csum : List Nat),
        Event.hash 1 fn p len ret csum ∈ (test_hash env s hist).1 → 0 ≤ ret →
        (p = some [0x61, 0x62, 0x63] ∧ len = 3 ∧
          (Event.vec_match s.name 1 ∈ (test_hash env s hist).1 ↔
            csum.take 32 =
              [0xba, 0x78, 0x16, 0xbf, 0x8f, 0x01, 0xcf, 0xea,
               0x41, 0x41, 0x40, 0xde, 0x5d, 0xae, 0x22, 0x23,
               0xb0, 0x03, 0x61, 0xa3, 0x96, 0x17, 0x7a, 0x9c,
               0xb4, 0x10, 0xff, 0x61, 0xf2, 0x00, 0x15, 0xad]))) := by
  refine ⟨by decide, by decide, by decide, ?_⟩
  intro cfg s hs hfn env hist fn p len ret csum hcall hret
  have hfam : s.testvec = sha256_tv ∧ s.digest_size = 32 := by
    rcases test_spec_families cfg s hs with ⟨a, _, _, _⟩ | ⟨a, _, _, _⟩ | ⟨_, b, _, d⟩ |
        ⟨a, _, _, _⟩
    · rw [a] at hfn
      exact absurd hfn (by decide)
    · rw [a] at hfn
      exact absurd hfn (by decide)
    · exact ⟨b, d⟩
    · rw [a] at hfn
      exact absurd hfn (by decide)
  have hvec : s.vec 1 = sha256_tv.getD 1 default := by
    unfold hash_testspec.vec
    rw [hfam.1]
  have hargs := test_hash_loop_hash_args env s s.count 0 false hist _ _ _ _ _ _ hcall
  have hv := (test_hash_loop_verdict env s s.count 0 false hist 1 fn p len ret csum hcall
    (not_lt.mpr hret)).1
  rw [memcmp_eq_zero_iff, hvec, hfam.2] at hv
  rw [hvec] at hargs
  exact ⟨hargs.2.1, hargs.2.2, hv⟩

/-- Witness of C10 (amended) on the SHA256-ref entry: an output buffer of zero
bytes on the vector "abc" is not reported as a match. -/
theorem sha256_abc_digest_witness :
    Event.vec_match (sample_spec 3).name 1 ∉ (test_hash env_zero (sample_spec 3) []).1 :=
  fun hm => absurd
    (((sha256_abc_digest.2.2.2 sample_cfg (sample_spec 3) (sample_spec_mem 3 (by decide))
      (by decide) env_zero [] HashFn.hash_sha256 (some [0x61, 0x62, 0x63]) 3 0
      (List.replicate 32 0) (by decide) (by decide)).2.2).mp hm)
    (by decide)

/-! ## Reporting of skips -/

/-- C11, as stated, fails: the SHA256-gcrypt entry of a build without
libgcrypt has backend 1 and five vectors, all of which test_hash skips, and
test_hash prints nothing at all for it. -/
theorem backend_skip_prints_nothing :
    (sample_spec 4).backend = 1 ∧ (sample_spec 4).count = 5 ∧
    test_hash env_zero (sample_spec 4) [] = ([], 0) := by
  decide

/-- C11, amended. Skips are reported for a missing CPU feature: when the
required CPU feature of a specification with at least one vector is absent,
the output of test_hash contains the line "<name> skipped, no CPU support".
A specification that is skipped only because its backend is not compiled in
(backend is 1 and the CPU feature is not missing) produces no output. -/
theorem test_hash_skip_report (env : Env) (spec : hash_testspec) (hist : List Event) :
    (spec.cpu_flag ≠ 0 → env.cpu_has_feature spec.cpu_flag = false → 0 < spec.count →
      Event.skipped spec.name ∈ (test_hash env spec hist).1 ∧
      (spec.name ++ " skipped, no CPU support\n") ∈
        (test_hash env spec hist).1.map Event.stdout) ∧
    ((spec.cpu_flag = 0 ∨ env.cpu_has_feature spec.cpu_flag = true) → spec.backend = 1 →
      (test_hash env spec hist).1 = []) := by
  constructor
  · intro hflag hcpu hcount
    have h : test_hash env spec hist =
        (List.replicate spec.count (Event.skipped spec.name), 0) :=
      test_hash_loop_cpu_skip env spec ⟨hflag, hcpu⟩ spec.count 0 false hist
    rw [h]
    have hne : spec.count ≠ 0 := by omega
    constructor
    · exact List.mem_replicate.mpr ⟨hne, rfl⟩
    · simp only [List.map_replicate]
      exact List.mem_replicate.mpr ⟨hne, rfl⟩
  · intro helig hb
    have hcpu : ¬ (spec.cpu_flag ≠ 0 ∧ env.cpu_has_feature spec.cpu_flag = false) := by
      rintro ⟨h0, hf⟩
      rcases helig with h | h
      · exact h0 h
      · rw [hf] at h
        exact absurd h (by simp)
    have h : test_hash env spec hist = ([], 0) :=
      test_hash_loop_backend_skip env spec hcpu hb spec.count 0 false hist
    rw [h]

/-- Witness of C11 (amended): the CRC32C-NI entry without CPU support prints
its skipped line, the SHA256-gcrypt entry with backend 1 prints nothing. -/
theorem test_hash_skip_report_witness :
    "CRC32C-NI skipped, no CPU support\n" ∈
      (test_hash env_fail (sample_spec 1) []).1.map Event.stdout ∧
    (test_hash env_fail (sample_spec 4) []).1 = [] :=
  ⟨((test_hash_skip_report env_fail (sample_spec 1) []).1 (by decide) (by decide)
      (by decide)).2,
   (test_hash_skip_report env_fail (sample_spec 4) []).2 (Or.inl (by decide)) (by decide)⟩

/-! ## The header line -/

theorem test_hash_iter_header_true (env : Env) (spec : hash_testspec) (i : Nat)
    (hist : List Event) :
    (test_hash_iter env spec i true hist).2.1 = true ∧
      ∀ e ∈ (test_hash_iter env spec i true hist).1, e.is_header = false := by
  have hpre : ∀ e ∈ dispatch_pre spec true, e.is_header = false := by
    intro e he
    unfold dispatch_pre at he
    simp only [Bool.true_eq_false, if_false, List.nil_append] at he
    split_ifs at he <;> simp at he
    rcases he with rfl | rfl <;> rfl
  have hcall : ∀ e ∈ call_events env spec i true hist, e.is_header = false := by
    intro e he
    rcases mem_call_events _ _ _ _ _ _ he with he | rfl | rfl
    · exact hpre e he
    · rfl
    · rfl
  rcases test_hash_iter_cases env spec i true hist with h | h | h | h
  · rw [h.2]
    exact ⟨rfl, by simp [Event.is_header]⟩
  · rw [h.2.2]
    exact ⟨rfl, by simp⟩
  · rw [h.2.2.2]
    refine ⟨rfl, ?_⟩
    intro e he
    simp only [List.mem_append, List.mem_singleton] at he
    rcases he with he | rfl
    · exact hcall e he
    · rfl
  · rw [h.2.2.2]
    refine ⟨rfl, ?_⟩
    intro e he
    rcases List.mem_append.mp he with he | he
    · exact hcall e he
    · rcases mem_verdict_events _ _ _ _ he with rfl | rfl | rfl | rfl | rfl | ⟨b, rfl⟩ <;> rfl

/-- Once the local `header` is true the loop prints no header. -/
theorem test_hash_loop_header_true (env : Env) (spec : hash_testspec) (n i : Nat)
    (hist : List Event) :
    ∀ e ∈ (test_hash_loop env spec n i true hist).1, e.is_header = false := by
  induction n generalizing i hist with
  | zero =>
    intro e he
    simp [test_hash_loop] at he
  | succ n ih =>
    have hiter := test_hash_iter_header_true env spec i hist
    intro e he
    rcases test_hash_loop_succ env spec n i true hist with ⟨v, _, heq⟩ | ⟨_, heq⟩
    · rw [heq] at he
      exact hiter.2 e he
    · rw [heq, hiter.1] at he
      rcases List.mem_append.mp he with he | he
      · exact hiter.2 e he
      · exact ih _ _ e he

/-- The loop entered with `header` false on a specification that is not
skipped starts, when it has an iteration to run, with the header line and the
hash call of that iteration, and prints no second header. -/
theorem test_hash_loop_first_dispatch (env : Env) (spec : hash_testspec)
    (hcpu : ¬ (spec.cpu_flag ≠ 0 ∧ env.cpu_has_feature spec.cpu_flag = false))
    (hb : spec.backend ≠ 1) (n i : Nat) (hn : 0 < n) (hist : List Event) :
    ∃ rest, (test_hash_loop env spec n i false hist).1 =
        call_events env spec i false hist ++ rest ∧
      (∀ e ∈ rest, e.is_header = false) ∧
      ((call_result env spec i false hist).1 < 0 →
        rest = [Event.error spec.name (call_result env spec i false hist).1] ∧
        (test_hash_loop env spec n i false hist).2 = 1) ∧
      (¬ (call_result env spec i false hist).1 < 0 →
        ∃ rest2, rest = verdict_events spec i (call_result env spec i false hist).2 ++ rest2 ∧
          ∀ e ∈ rest2, ∀ j, e.index = some j → i + 1 ≤ j) := by
  obtain ⟨n, rfl⟩ := Nat.exists_eq_succ_of_ne_zero (Nat.pos_iff_ne_zero.mp hn)
  rcases test_hash_iter_cases env spec i false hist with h | h | h | h
  · exact absurd h.1 hcpu
  · exact absurd h.2.1 hb
  · obtain ⟨_, _, hret, heq⟩ := h
    rw [test_hash_loop_return env spec n i false hist _ _ _ heq]
    refine ⟨_, rfl, ?_, fun _ => ⟨rfl, rfl⟩, fun hn => absurd hret hn⟩
    intro e he
    simp only [List.mem_singleton] at he
    rw [he]
    rfl
  · obtain ⟨_, _, hret, heq⟩ := h
    rw [test_hash_loop_next env spec n i false hist _ _ heq]
    refine ⟨_, List.append_assoc _ _ _, ?_, fun hn => absurd hn hret,
      fun _ => ⟨_, rfl, test_hash_loop_index_ge env spec n (i + 1) true _⟩⟩
    intro e he
    rcases List.mem_append.mp he with he | he
    · rcases mem_verdict_events _ _ _ _ he with rfl | rfl | rfl | rfl | rfl | ⟨b, rfl⟩ <;> rfl
    · exact test_hash_loop_header_true env spec n (i + 1) _ e he

theorem call_events_header_false (env : Env) (spec : hash_testspec) (i : Nat)
    (hist : List Event) :
    ∃ rest, call_events env spec i false hist = Event.header spec.name spec.count :: rest ∧
      (∀ e ∈ rest, e.is_header = false) ∧ hash_calls rest ≠ [] := by
  unfold call_events dispatch_pre
  simp only [if_true, List.singleton_append, List.cons_append]
  refine ⟨_, rfl, ?_, ?_⟩
  · intro e he
    rw [List.mem_append] at he
    rcases he with he | he
    · split_ifs at he <;> simp at he
      rcases he with rfl | rfl <;> rfl
    · simp only [List.mem_cons, List.mem_singleton, List.not_mem_nil, or_false] at he
      rcases he with rfl | rfl <;> rfl
  · rw [hash_calls_append]
    simp [hash_calls]

/-- C16. Header line: test_hash prints the header exactly once if it calls the
hash function at least once (also when the very first call is a hard failure)
and never otherwise; when printed, the header is the first event of test_hash,
so it precedes the first hash call and every match or MISMATCH line; and it
names spec.count, the total number of vectors:
"TEST: name=<name> vectors=<count>". -/
theorem test_hash_header_line (env : Env) (spec : hash_testspec) (hist : List Event) :
    (hash_calls (test_hash env spec hist).1 = [] →
      ∀ e ∈ (test_hash env spec hist).1, e.is_header = false) ∧
    (hash_calls (test_hash env spec hist).1 ≠ [] →
      ∃ rest, (test_hash env spec hist).1 = Event.header spec.name spec.count :: rest ∧
        ∀ e ∈ rest, e.is_header = false) ∧
    (spec.count < 2 ^ 63 →
      (Event.header spec.name spec.count).stdout =
        "TEST: name=" ++ spec.name ++ " vectors=" ++ toString spec.count ++ "\n") := by
  have hskip : (hash_calls (test_hash env spec hist).1 = [] ∧
        ∀ e ∈ (test_hash env spec hist).1, e.is_header = false) ∨
      ∃ rest, (test_hash env spec hist).1 = Event.header spec.name spec.count :: rest ∧
        (∀ e ∈ rest, e.is_header = false) ∧ hash_calls (test_hash env spec hist).1 ≠ [] := by
    by_cases hcpu : spec.cpu_flag ≠ 0 ∧ env.cpu_has_feature spec.cpu_flag = false
    · left
      have h : test_hash env spec hist =
          (List.replicate spec.count (Event.skipped spec.name), 0) :=
        test_hash_loop_cpu_skip env spec hcpu spec.count 0 false hist
      rw [h]
      refine ⟨by simp [hash_calls], ?_⟩
      intro e he
      obtain ⟨_, rfl⟩ := List.mem_replicate.mp he
      rfl
    · by_cases hb : spec.backend = 1
      · left
        have h : test_hash env spec hist = ([], 0) :=
          test_hash_loop_backend_skip env spec hcpu hb spec.count 0 false hist
        rw [h]
        simp [hash_calls]
      · unfold test_hash
        rcases Nat.eq_zero_or_pos spec.count with hn | hn
        · left
          rw [hn]
          simp [test_hash_loop, hash_calls]
        · right
          obtain ⟨rest, hrest, hnoh, _, _⟩ :=
            test_hash_loop_first_dispatch env spec hcpu hb spec.count 0 hn hist
          obtain ⟨rest0, hrest0, hnoh0, hcalls⟩ := call_events_header_false env spec 0 hist
          rw [hrest, hrest0]
          refine ⟨rest0 ++ rest, rfl, ?_, ?_⟩
          · intro e he
            rcases List.mem_append.mp he with he | he
            · exact hnoh0 e he
            · exact hnoh e he
          · rw [List.cons_append, ← List.singleton_append, hash_calls_append,
              hash_calls_append]
            intro hnil
            simp only [List.append_eq_nil] at hnil
            exact hcalls hnil.2.1
  refine ⟨?_, ?_, ?_⟩
  · intro hnil
    rcases hskip with h | ⟨_, _, _, hne⟩
    · exact h.2
    · exact absurd hnil hne
  · intro hne
    rcases hskip with h | ⟨rest, hrest, hnoh, _⟩
    · exact absurd h.1 hne
    · exact ⟨rest, hrest, hnoh⟩
  · intro hc
    have hfmt : fmt_zd spec.count = toString spec.count := by
      unfold fmt_zd
      rw [Nat.mod_eq_of_lt (lt_trans hc (by norm_num)), if_pos hc]
    show "TEST: name=" ++ spec.name ++ " vectors=" ++ fmt_zd spec.count ++ "\n" = _
    rw [hfmt]

/-- Witness of C16 on the CRC32C-ref entry with a hash function that fails on
the first call: the header is still the first event. -/
theorem test_hash_header_line_witness :
    ∃ rest, (test_hash env_fail (sample_spec 0) []).1 =
      Event.header "CRC32C-ref" 2 :: rest ∧ ∀ e ∈ rest, e.is_header = false :=
  (test_hash_header_line env_fail (sample_spec 0) []).2.1 (by decide)

/-! ## Vectors of the registry -/

/-- Events of the loop entered at index `i` with `n` iterations left carry
indices below `i + n`. -/
theorem test_hash_loop_index_lt (env : Env) (spec : hash_testspec) (n i : Nat) (header : Bool)
    (hist : List Event) :
    ∀ e ∈ (test_hash_loop env spec n i header hist).1, ∀ j, e.index = some j → j < i + n := by
  induction n generalizing i header hist with
  | zero =>
    intro e he
    simp [test_hash_loop] at he
  | succ n ih =>
    have hiter := test_hash_iter_events env spec i header hist
    intro e he j hj
    rcases test_hash_loop_succ env spec n i header hist with ⟨v, _, heq⟩ | ⟨_, heq⟩
    · rw [heq] at he
      have := hiter.1 e he j hj
      omega
    · rw [heq] at he
      rcases List.mem_append.mp he with he | he
      · have := hiter.1 e he j hj
        omega
      · have := ih _ _ _ e he j hj
        omega

/-- Every entry of the registry counts exactly the vectors of its table. -/
theorem test_spec_count (cfg : Config) (s : hash_testspec) (h : s ∈ test_spec cfg) :
    s.count = s.testvec.length := by
  rcases test_spec_families cfg s h with ⟨_, b, c, _⟩ | ⟨_, b, c, _⟩ | ⟨_, b, c, _⟩ |
      ⟨_, b, c, _⟩ <;>
    rw [b, c]

theorem vec_mem_testvec (spec : hash_testspec) (i : Nat) (hi : i < spec.testvec.length) :
    spec.vec i ∈ spec.testvec := by
  unfold hash_testspec.vec
  rw [List.getD_eq_getElem _ _ hi]
  exact List.getElem_mem _

/-- The expected digest of every vector of a registry entry has exactly
digest_size bytes. -/
theorem test_spec_digest_length (cfg : Config) (s : hash_testspec) (h : s ∈ test_spec cfg) :
    ∀ v ∈ s.testvec, v.digest.length = s.digest_size := by
  rcases test_spec_families cfg s h with ⟨_, b, _, d⟩ | ⟨_, b, _, d⟩ | ⟨_, b, _, d⟩ |
      ⟨_, b, _, d⟩ <;>
    rw [b, d]
  · exact crc32c_tv_digest_length
  · exact xxhash64_tv_digest_length
  · exact sha256_tv_digest_length
  · exact blake2b_256_tv_digest_length

/-- A hash call of test_hash on a registry entry is made on a vector of its
table, and when it does not fail the match line is printed exactly when the
first digest_size bytes of the output buffer are the expected digest. -/
theorem test_hash_registry_call (cfg : Config) (s : hash_testspec) (hs : s ∈ test_spec cfg)
    (env : Env) (hist : List Event) (i : Nat) (fn : HashFn) (p : Option (List Nat))
    (len : Nat) (ret : Int) (csum : List Nat)
    (hcall : Event.hash i fn p len ret csum ∈ (test_hash env s hist).1) :
    s.vec i ∈ s.testvec ∧ p = (s.vec i).plaintext ∧ len = (s.vec i).psize ∧
    (0 ≤ ret →
      (Event.vec_match s.name i ∈ (test_hash env s hist).1 ↔
        csum.take s.digest_size = (s.vec i).digest) ∧
      (Event.vec_mismatch s.name i ∈ (test_hash env s hist).1 ↔
        csum.take s.digest_size ≠ (s.vec i).digest)) := by
  have hlt := test_hash_loop_index_lt env s s.count 0 false hist _ hcall i rfl
  rw [test_spec_count cfg s hs, Nat.zero_add] at hlt
  have hmem := vec_mem_testvec s i hlt
  have hargs := test_hash_loop_hash_args env s s.count 0 false hist _ _ _ _ _ _ hcall
  refine ⟨hmem, hargs.2.1, hargs.2.2, ?_⟩
  intro hret
  have hv := test_hash_loop_verdict env s s.count 0 false hist i fn p len ret csum hcall
    (not_lt.mpr hret)
  have htake : (s.vec i).digest.take s.digest_size = (s.vec i).digest :=
    List.take_of_length_le (le_of_eq (test_spec_digest_length cfg s hs _ hmem))
  rw [memcmp_eq_zero_iff, htake] at hv
  exact hv

theorem crc32c_tv_psize : ∀ v ∈ crc32c_tv,
    v.psize = v.plaintext_size ∧ (v.plaintext = none → v.psize = 0) := by
  decide

set_option maxRecDepth 20000 in
theorem xxhash64_tv_psize : ∀ v ∈ xxhash64_tv,
    v.psize = v.plaintext_size ∧ (v.plaintext = none → v.psize = 0) := by
  decide

set_option maxRecDepth 20000 in
theorem sha256_tv_psize : ∀ v ∈ sha256_tv,
    v.psize = v.plaintext_size ∧ (v.plaintext = none → v.psize = 0) := by
  decide

set_option maxRecDepth 20000 in
theorem blake2b_256_tv_psize : ∀ v ∈ blake2b_256_tv,
    v.psize = v.plaintext_size ∧ (v.plaintext = none → v.psize = 0) := by
  decide

set_option maxRecDepth 20000 in
theorem tables_literal_lengths :
    crc32c_tv.filterMap (fun v => v.plaintext.map List.length) = [7] ∧
    xxhash64_tv.filterMap (fun v => v.plaintext.map List.length) = [1, 14, 222] ∧
    sha256_tv.filterMap (fun v => v.plaintext.map List.length) = [0, 3, 56, 64, 1023] ∧
    blake2b_256_tv.filterMap (fun v => v.plaintext.map List.length) = [0, 64, 1023] := by
  decide

set_option maxRecDepth 20000 in
theorem xxhash64_tv_embedded_zero :
    ∃ v ∈ xxhash64_tv, ∃ p, v.plaintext = some p ∧ 0 ∈ p ∧ p.length = v.psize :=
  ⟨xxhash64_tv.getD 3 default, by decide, _, rfl, by decide, by decide⟩

/-- C17. Declared lengths stay within the data: in every vector of the four
tables psize equals the number of bytes of the plaintext literal (7; 1, 14,
222; 0, 3, 56, 64, 1023; 0, 64, 1023), zero bytes inside the literal counted,
and a vector without plaintext (null pointer) has psize 0; so every hash call
that test_hash makes on a registry entry passes a length equal to the number
of bytes behind the plaintext pointer it passes. -/
theorem tables_psize_within_plaintext :
    (∀ v ∈ crc32c_tv ++ xxhash64_tv ++ sha256_tv ++ blake2b_256_tv,
      v.psize = v.plaintext_size ∧ (v.plaintext = none → v.psize = 0)) ∧
    (crc32c_tv.filterMap (fun v => v.plaintext.map List.length) = [7] ∧
      xxhash64_tv.filterMap (fun v => v.plaintext.map List.length) = [1, 14, 222] ∧
      sha256_tv.filterMap (fun v => v.plaintext.map List.length) = [0, 3, 56, 64, 1023] ∧
      blake2b_256_tv.filterMap (fun v => v.plaintext.map List.length) = [0, 64, 1023]) ∧
    (∃ v ∈ xxhash64_tv, ∃ p, v.plaintext = some p ∧ 0 ∈ p ∧ p.length = v.psize) ∧
    (∀ (cfg : Config) (s : hash_testspec), s ∈ test_spec cfg →
      ∀ (env : Env) (hist : List Event) (i : Nat) (fn : HashFn) (p : Option (List Nat))
        (len : Nat) (ret : Int) (csum : List Nat),
        Event.hash i fn p len ret csum ∈ (test_hash env s hist).1 →
        len = (match p with
          | none => 0
          | some q => q.length)) := by
  have htab : ∀ v ∈ crc32c_tv ++ xxhash64_tv ++ sha256_tv ++ blake2b_256_tv,
      v.psize = v.plaintext_size ∧ (v.plaintext = none → v.psize = 0) := by
    intro v hv
    simp only [List.mem_append] at hv
    rcases hv with ((hv | hv) | hv) | hv
    · exact crc32c_tv_psize v hv
    · exact xxhash64_tv_psize v hv
    · exact sha256_tv_psize v hv
    · exact blake2b_256_tv_psize v hv
  refine ⟨htab, tables_literal_lengths, xxhash64_tv_embedded_zero, ?_⟩
  intro cfg s hs env hist i fn p len ret csum hcall
  obtain ⟨hmem, hp, hlen, _⟩ := test_hash_registry_call cfg s hs env hist i fn p len ret csum
    hcall
  have hv : s.vec i ∈ crc32c_tv ++ xxhash64_tv ++ sha256_tv ++ blake2b_256_tv := by
    simp only [List.mem_append]
    rcases test_spec_families cfg s hs with ⟨_, b, _, _⟩ | ⟨_, b, _, _⟩ | ⟨_, b, _, _⟩ |
        ⟨_, b, _, _⟩ <;> rw [b] at hmem
    · exact Or.inl (Or.inl (Or.inl hmem))
    · exact Or.inl (Or.inl (Or.inr hmem))
    · exact Or.inl (Or.inr hmem)
    · exact Or.inr hmem
  rw [hlen, hp, (htab _ hv).1]
  rfl

/-- Witness of C17 on the second call of test_hash on the CRC32C-ref entry:
the length passed is the length of the plaintext passed. -/
theorem tables_psize_within_plaintext_witness :
    (7 : Nat) = [0x61, 0x62, 0x63, 0x64, 0x65, 0x66, 0x67].length :=
  tables_psize_within_plaintext.2.2.2 sample_cfg (sample_spec 0)
    (sample_spec_mem 0 (by decide)) env_zero [] 1 HashFn.hash_crc32c
    (some [0x61, 0x62, 0x63, 0x64, 0x65, 0x66, 0x67]) 7 0 (List.replicate 32 0) (by decide)

/-! ## Literal scenarios and the zero-length vector -/

/-- C13. FastHash64 and Checksum32 literal scenarios: xxhash64_tv records the
digest 99 e9 d8 51 37 db 46 ef for the zero-length input and
20 5c 91 aa 88 eb 59 d0 for the single byte 0x40; crc32c_tv records
00 00 00 00 for the zero-length input and 41 f4 27 e6 for the 7-byte input
"abcdefg"; and on every XXHASH or CRC32C entry of the registry a hash call on
one of these vectors that does not fail is reported "match" exactly when the
first digest_size bytes of the output buffer are that digest. -/
theorem xxhash_crc32c_literal_scenarios :
    (xxhash64_tv.getD 0 default =
        ⟨none, 0, [0x99, 0xe9, 0xd8, 0x51, 0x37, 0xdb, 0x46, 0xef]⟩ ∧
      xxhash64_tv.getD 1 default =
        ⟨some [0x40], 1, [0x20, 0x5c, 0x91, 0xaa, 0x88, 0xeb, 0x59, 0xd0]⟩ ∧
      crc32c_tv.getD 0 default = ⟨none, 0, [0x00, 0x00, 0x00, 0x00]⟩ ∧
      crc32c_tv.getD 1 default =
        ⟨some [0x61, 0x62, 0x63, 0x64, 0x65, 0x66, 0x67], 7, [0x41, 0xf4, 0x27, 0xe6]⟩) ∧
    (String.intercalate " " ((xxhash64_tv.getD 0 default).digest.map fmt_02hhx) =
        "99 e9 d8 51 37 db 46 ef" ∧
      String.intercalate " " ((xxhash64_tv.getD 1 default).digest.map fmt_02hhx) =
        "20 5c 91 aa 88 eb 59 d0" ∧
      String.intercalate " " ((crc32c_tv.getD 0 default).digest.map fmt_02hhx) =
        "00 00 00 00" ∧
      String.intercalate " " ((crc32c_tv.getD 1 default).digest.map fmt_02hhx) =
        "41 f4 27 e6") ∧
    (∀ (cfg : Config) (s : hash_testspec), s ∈ test_spec cfg →
      ∀ (env : Env) (hist : List Event) (i : Nat) (fn : HashFn) (p : Option (List Nat))
        (len : Nat) (ret : Int) (csum : List Nat),
        Event.hash i fn p len ret csum ∈ (test_hash env s hist).1 → 0 ≤ ret →
        (s.hash = HashFn.hash_xxhash →
          (i = 0 → p = none ∧ len = 0 ∧
            (Event.vec_match s.name i ∈ (test_hash env s hist).1 ↔
              csum.take 8 = [0x99, 0xe9, 0xd8, 0x51, 0x37, 0xdb, 0x46, 0xef])) ∧
          (i = 1 → p = some [0x40] ∧ len = 1 ∧
            (Event.vec_match s.name i ∈ (test_hash env s hist).1 ↔
              csum.take 8 = [0x20, 0x5c, 0x91, 0xaa, 0x88, 0xeb, 0x59, 0xd0]))) ∧
        (s.hash = HashFn.hash_crc32c →
          (i = 0 → p = none ∧ len = 0 ∧
            (Event.vec_match s.name i ∈ (test_hash env s hist).1 ↔
              csum.take 4 = [0x00, 0x00, 0x00, 0x00])) ∧
          (i = 1 → p = some [0x61, 0x62, 0x63, 0x64, 0x65, 0x66, 0x67] ∧ len = 7 ∧
            (Event.vec_match s.name i ∈ (test_hash env s hist).1 ↔
              csum.take 4 = [0x41, 0xf4, 0x27, 0xe6])))) := by
  refine ⟨by decide, by decide, ?_⟩
  intro cfg s hs env hist i fn p len ret csum hcall hret
  obtain ⟨_, hp, hlen, hv⟩ := test_hash_registry_call cfg s hs env hist i fn p len ret csum
    hcall
  have hm := (hv hret).1
  have hfam := test_spec_families cfg s hs
  constructor
  · intro hfn
    have hx : s.testvec = xxhash64_tv ∧ s.digest_size = 8 := by
      rcases hfam with ⟨a, _, _, _⟩ | ⟨_, b, _, d⟩ | ⟨a, _, _, _⟩ | ⟨a, _, _, _⟩
      · rw [a] at hfn
        exact absurd hfn (by decide)
      · exact ⟨b, d⟩
      · rw [a] at hfn
        exact absurd hfn (by decide)
      · rw [a] at hfn
        exact absurd hfn (by decide)
    unfold hash_testspec.vec at hp hlen hm
    rw [hx.1] at hp hlen hm
    rw [hx.2] at hm
    constructor
    · intro hi
      subst hi
      exact ⟨hp, hlen, hm⟩
    · intro hi
      subst hi
      exact ⟨hp, hlen, hm⟩
  · intro hfn
    have hx : s.testvec = crc32c_tv ∧ s.digest_size = 4 := by
      rcases hfam with ⟨_, b, _, d⟩ | ⟨a, _, _, _⟩ | ⟨a, _, _, _⟩ | ⟨a, _, _, _⟩
      · exact ⟨b, d⟩
      · rw [a] at hfn
        exact absurd hfn (by decide)
      · rw [a] at hfn
        exact absurd hfn (by decide)
      · rw [a] at hfn
        exact absurd hfn (by decide)
    unfold hash_testspec.vec at hp hlen hm
    rw [hx.1] at hp hlen hm
    rw [hx.2] at hm
    constructor
    · intro hi
      subst hi
      exact ⟨hp, hlen, hm⟩
    · intro hi
      subst hi
      exact ⟨hp, hlen, hm⟩

/-- Witness of C13 on the XXHASH entry: an output buffer of zero bytes on the
zero-length vector is not reported as a match. -/
theorem xxhash_crc32c_literal_scenarios_witness :
    Event.vec_match "XXHASH" 0 ∉ (test_hash env_zero (sample_spec 2) []).1 :=
  fun hm => absurd
    ((((xxhash_crc32c_literal_scenarios.2.2 sample_cfg (sample_spec 2)
      (sample_spec_mem 2 (by decide)) env_zero [] 0 HashFn.hash_xxhash none 0 0
      (List.replicate 32 0) (by decide) (by decide)).1 (by decide)).1 rfl).2.2.mp hm)
    (by decide)

/-- C14, as stated, fails: the CRC32C-ref entry is eligible, yet with a hash
function that returns -1 test_hash calls it on the zero-length vector and
prints no match or MISMATCH line for index 0. -/
theorem zero_length_vector_without_verdict :
    (sample_spec 0).cpu_flag = 0 ∧ (sample_spec 0).backend ≠ 1 ∧
    test_hash env_fail (sample_spec 0) [] =
      ([Event.header "CRC32C-ref" 2, Event.hash 0 HashFn.hash_crc32c none 0 (-1) [],
        Event.cpu_reset_level, Event.error "CRC32C-ref" (-1)], 1) ∧
    verdicts (test_hash env_fail (sample_spec 0) []).1 = [] := by
  decide

/-- The first vector of every table has psize 0; its plaintext is the null
pointer in crc32c_tv and xxhash64_tv and the empty literal in sha256_tv and
blake2b_256_tv. -/
theorem tables_first_vector :
    ((crc32c_tv.getD 0 default).psize = 0 ∧ (crc32c_tv.getD 0 default).plaintext = none) ∧
    ((xxhash64_tv.getD 0 default).psize = 0 ∧ (xxhash64_tv.getD 0 default).plaintext = none) ∧
    ((sha256_tv.getD 0 default).psize = 0 ∧ (sha256_tv.getD 0 default).plaintext = some []) ∧
    ((blake2b_256_tv.getD 0 default).psize = 0 ∧
      (blake2b_256_tv.getD 0 default).plaintext = some []) := by
  decide

/-- C14, amended. Zero-length input is a real test: every entry of test_spec
has at least one vector and its first vector has psize 0 (null plaintext for
CRC32C and XXHASH, empty non-null plaintext for SHA256 and BLAKE2); for every
eligible entry test_hash calls the hash function on that vector with length 0
and, provided that call returns a non-negative status, prints for index 0
exactly one of "match" and "MISMATCH", "match" exactly when the output agrees
with the recorded empty-input digest.  When that call returns a negative
status test_hash prints no verdict and returns 1. -/
theorem zero_length_vector_is_tested (cfg : Config) (s : hash_testspec)
    (hs : s ∈ test_spec cfg) :
    (0 < s.count ∧ s.vec 0 ∈ s.testvec ∧ (s.vec 0).psize = 0 ∧
      (s.hash = HashFn.hash_crc32c ∨ s.hash = HashFn.hash_xxhash →
        (s.vec 0).plaintext = none) ∧
      (s.hash = HashFn.hash_sha256 ∨ s.hash = HashFn.hash_blake2b →
        (s.vec 0).plaintext = some [])) ∧
    (∀ (env : Env) (hist : List Event),
      (s.cpu_flag = 0 ∨ env.cpu_has_feature s.cpu_flag = true) → s.backend ≠ 1 →
      ∃ ret csum,
        Event.hash 0 s.hash (s.vec 0).plaintext 0 ret csum ∈ (test_hash env s hist).1 ∧
        (0 ≤ ret →
          (Event.vec_match s.name 0 ∈ (test_hash env s hist).1 ↔
            csum.take s.digest_size = (s.vec 0).digest) ∧
          (Event.vec_mismatch s.name 0 ∈ (test_hash env s hist).1 ↔
            csum.take s.digest_size ≠ (s.vec 0).digest)) ∧
        (ret < 0 →
          verdicts (test_hash env s hist).1 = [] ∧ (test_hash env s hist).2 = 1)) := by
  have hfirst : 0 < s.count ∧ (s.vec 0).psize = 0 ∧
      (s.hash = HashFn.hash_crc32c ∨ s.hash = HashFn.hash_xxhash →
        (s.vec 0).plaintext = none) ∧
      (s.hash = HashFn.hash_sha256 ∨ s.hash = HashFn.hash_blake2b →
        (s.vec 0).plaintext = some []) := by
    unfold hash_testspec.vec
    rcases test_spec_families cfg s hs with ⟨a, b, c, _⟩ | ⟨a, b, c, _⟩ | ⟨a, b, c, _⟩ |
        ⟨a, b, c, _⟩ <;>
      rw [a, b, c] <;>
      refine ⟨by decide, ?_, ?_, ?_⟩ <;>
      first
        | exact tables_first_vector.1.1
        | exact tables_first_vector.2.1.1
        | exact tables_first_vector.2.2.1.1
        | exact tables_first_vector.2.2.2.1
        | (intro _; exact tables_first_vector.1.2)
        | (intro _; exact tables_first_vector.2.2.1.2)
        | (intro h; rcases h with h | h <;> exact absurd h (by decide))
  have hmem : s.vec 0 ∈ s.testvec := by
    apply vec_mem_testvec
    rw [← test_spec_count cfg s hs]
    exact hfirst.1
  refine ⟨⟨hfirst.1, hmem, hfirst.2⟩, ?_⟩
  intro env hist helig hb
  have hcpu : ¬ (s.cpu_flag ≠ 0 ∧ env.cpu_has_feature s.cpu_flag = false) := by
    rintro ⟨h0, hf⟩
    rcases helig with h | h
    · exact h0 h
    · rw [hf] at h
      exact absurd h (by simp)
  obtain ⟨rest, hrest, _, hfail, _⟩ :=
    test_hash_loop_first_dispatch env s hcpu hb s.count 0 hfirst.1 hist
  have hcall : Event.hash 0 s.hash (s.vec 0).plaintext 0 (call_result env s 0 false hist).1
      (call_result env s 0 false hist).2 ∈ (test_hash env s hist).1 := by
    unfold test_hash
    rw [hrest]
    apply List.mem_append_left
    unfold call_events
    apply List.mem_append_right
    rw [hfirst.2.1]
    exact List.mem_cons_self _ _
  refine ⟨_, _, hcall, ?_, ?_⟩
  · intro hret
    exact (test_hash_registry_call cfg s hs env hist 0 _ _ _ _ _ hcall).2.2.2 hret
  · intro hneg
    obtain ⟨hr, hret1⟩ := hfail hneg
    unfold test_hash
    refine ⟨?_, hret1⟩
    rw [hrest, hr, verdicts_append, verdicts_call_events]
    rfl

/-- Witness of C14 (amended) on the CRC32C-ref entry with a hash function that
leaves zero bytes: the zero-length vector is hashed and reported "match". -/
theorem zero_length_vector_is_tested_witness :
    ∃ ret csum,
      Event.hash 0 HashFn.hash_crc32c none 0 ret csum ∈
        (test_hash env_zero (sample_spec 0) []).1 ∧
      (0 ≤ ret →
        (Event.vec_match "CRC32C-ref" 0 ∈ (test_hash env_zero (sample_spec 0) []).1 ↔
          csum.take 4 = [0, 0, 0, 0]) ∧
        (Event.vec_mismatch "CRC32C-ref" 0 ∈ (test_hash env_zero (sample_spec 0) []).1 ↔
          csum.take 4 ≠ [0, 0, 0, 0])) ∧
      (ret < 0 →
        verdicts (test_hash env_zero (sample_spec 0) []).1 = [] ∧
        (test_hash env_zero (sample_spec 0) []).2 = 1) :=
  (zero_length_vector_is_tested sample_cfg (sample_spec 0) (sample_spec_mem 0 (by decide))).2
    env_zero [] (Or.inl (by decide)) (by decide)

/-! ## Rendering of a verdict -/

theorem range_map_getD_eq_take (buf : List Nat) (size : Nat) (h : size ≤ buf.length) :
    (List.range size).map (fun j => buf.getD j 0) = buf.take size := by
  apply List.ext_getElem
  · simp [h]
  · intro k h1 h2
    simp only [List.length_map, List.length_range] at h1
    simp [List.getElem?_eq_getElem (lt_of_lt_of_le h1 h)]

theorem print_hex_stdout (buf : List Nat) (size : Nat) :
    (print_hex buf size).map Event.stdout =
      (List.range size).map (fun j => " " ++ fmt_02hhx (buf.getD j 0)) := by
  simp [print_hex, Event.stdout, List.map_map, Function.comp_def]

/-- The text that the statement printing the verdict writes. -/
theorem verdict_events_stdout (spec : hash_testspec) (i : Nat) (csum : List Nat) :
    (csum.take spec.digest_size = (spec.vec i).digest.take spec.digest_size →
      (verdict_events spec i csum).map Event.stdout =
        [spec.name ++ " vector " ++ toString i ++ ": match\n"]) ∧
    (csum.take spec.digest_size ≠ (spec.vec i).digest.take spec.digest_size →
      (verdict_events spec i csum).map Event.stdout =
        [spec.name ++ " vector " ++ toString i ++ ": MISMATCH\n"] ++
        ("  want:" :: (List.range spec.digest_size).map
            (fun j => " " ++ fmt_02hhx ((spec.vec i).digest.getD j 0)) ++ ["\n"]) ++
        ("  have:" :: (List.range spec.digest_size).map
            (fun j => " " ++ fmt_02hhx (csum.getD j 0)) ++ ["\n"])) := by
  constructor
  · intro h
    unfold verdict_events
    rw [if_pos ((memcmp_eq_zero_iff _ _ _).mpr h)]
    rfl
  · intro h
    unfold verdict_events
    rw [if_neg (fun h0 => h ((memcmp_eq_zero_iff _ _ _).mp h0))]
    simp only [List.map_append, print_hex_stdout]
    simp [Event.stdout]

/-- A hash call of the loop that did not fail is directly followed by
cpu_reset_level and the events of its verdict; what comes before belongs to
earlier vectors and what comes after to later ones. -/
theorem test_hash_loop_vector_segment (env : Env) (spec : hash_testspec) (n i : Nat)
    (header : Bool) (hist : List Event) (j : Nat) (fn : HashFn) (p : Option (List Nat))
    (len : Nat) (ret : Int) (csum : List Nat)
    (he : Event.hash j fn p len ret csum ∈ (test_hash_loop env spec n i header hist).1)
    (hret : ¬ ret < 0) :
    ∃ pre post, (test_hash_loop env spec n i header hist).1 =
        pre ++ (Event.hash j fn p len ret csum :: Event.cpu_reset_level ::
          verdict_events spec j csum) ++ post ∧
      (∀ e ∈ pre, ∀ k, e.index = some k → k < j) ∧
      (∀ e ∈ post, ∀ k, e.index = some k → j < k) := by
  induction n generalizing i header hist with
  | zero => simp [test_hash_loop] at he
  | succ n ih =>
    have hiter := test_hash_iter_events env spec i header hist
    have hpre : ∀ e ∈ dispatch_pre spec header, ∀ k, e.index = some k → k < j := by
      intro e he k hk
      rcases mem_dispatch_pre _ _ _ he with rfl | rfl | rfl <;> simp [Event.index] at hk
    have hcase : Event.hash j fn p len ret csum ∈ (test_hash_iter env spec i header hist).1 →
        (test_hash_iter env spec i header hist).2.2 = none ∧
        (test_hash_iter env spec i header hist).1 =
          dispatch_pre spec header ++ (Event.hash j fn p len ret csum ::
            Event.cpu_reset_level :: verdict_events spec j csum) ∧ j = i := by
      intro he
      rcases test_hash_iter_cases env spec i header hist with h | h | h | h
      · rw [h.2] at he
        simp at he
      · rw [h.2.2] at he
        simp at he
      · obtain ⟨_, _, hneg, heq⟩ := h
        rw [heq] at he
        simp only [List.mem_append, List.mem_singleton] at he
        rcases he with he | he
        · obtain ⟨_, hr, _⟩ := hash_mem_call_events _ _ _ _ _ _ _ _ _ _ _ he
          rw [hr] at hret
          exact absurd hneg hret
        · simp at he
      · obtain ⟨_, _, _, heq⟩ := h
        rw [heq] at he ⊢
        rcases List.mem_append.mp he with he | he
        · rcases mem_call_events _ _ _ _ _ _ he with he | he | he
          · rcases mem_dispatch_pre _ _ _ he with h | h | h <;> simp at h
          · simp only [Event.hash.injEq] at he
            obtain ⟨rfl, rfl, rfl, rfl, rfl, rfl⟩ := he
            refine ⟨rfl, ?_, rfl⟩
            unfold call_events
            simp only [List.append_assoc, List.cons_append, List.nil_append]
          · simp at he
        · exact absurd he (hash_not_mem_verdict_events _ _ _ _ _ _ _ _ _)
    rcases test_hash_loop_succ env spec n i header hist with ⟨v, hv, heq⟩ | ⟨_, heq⟩
    · rw [heq] at he
      have := (hcase he).1
      rw [hv] at this
      simp at this
    · rw [heq] at he ⊢
      have hge := test_hash_loop_index_ge env spec n (i + 1)
        (test_hash_iter env spec i header hist).2.1
        (hist ++ (test_hash_iter env spec i header hist).1)
      rcases List.mem_append.mp he with he | he
      · obtain ⟨_, hes, hji⟩ := hcase he
        refine ⟨dispatch_pre spec header,
          (test_hash_loop env spec n (i + 1) (test_hash_iter env spec i header hist).2.1
            (hist ++ (test_hash_iter env spec i header hist).1)).1, ?_, hpre, ?_⟩
        · show _ ++ _ = _
          rw [hes]
        · intro e hmem k hk
          have := hge e hmem k hk
          omega
      · obtain ⟨pre, post, hdec, hlt, hgt⟩ := ih _ _ _ he
        have hj : i + 1 ≤ j := hge _ he j rfl
        refine ⟨(test_hash_iter env spec i header hist).1 ++ pre, post, ?_, ?_, hgt⟩
        · show _ ++ _ = _
          rw [hdec]
          simp only [List.append_assoc]
        · intro e hmem k hk
          rcases List.mem_append.mp hmem with hmem | hmem
          · have := hiter.1 e hmem k hk
            omega
          · exact hlt e hmem k hk

/-- C12. Mismatch rendering: a hash call of test_hash on vector i that did
not fail, where the expected digest of the vector has at least digest_size
bytes, is followed, right after cpu_reset_level, by the output for that
vector and nothing else of that vector is printed elsewhere.  When the digest
mismatches the output is three lines in this order: "<name> vector <i>:
MISMATCH"; "  want:" followed by exactly digest_size groups, each a space and
the two lower-case hexadecimal digits of the corresponding byte of the
expected digest; "  have:" followed by the same rendering of the first
digest_size bytes of the computed digest.  When it matches the output is the
single line "<name> vector <i>: match". -/
theorem test_hash_mismatch_rendering (env : Env) (spec : hash_testspec) (hist : List Event)
    (i : Nat) (fn : HashFn) (p : Option (List Nat)) (len : Nat) (ret : Int) (csum : List Nat)
    (hcall : Event.hash i fn p len ret csum ∈ (test_hash env spec hist).1)
    (hret : 0 ≤ ret)
    (hdig : spec.digest_size ≤ (spec.vec i).digest.length) :
    (∃ pre post, (test_hash env spec hist).1 =
        pre ++ (Event.hash i fn p len ret csum :: Event.cpu_reset_level ::
          verdict_events spec i csum) ++ post ∧
      (∀ e ∈ pre, ∀ k, e.index = some k → k < i) ∧
      (∀ e ∈ post, ∀ k, e.index = some k → i < k)) ∧
    (csum.take spec.digest_size = (spec.vec i).digest.take spec.digest_size →
      (verdict_events spec i csum).map Event.stdout =
        [spec.name ++ " vector " ++ toString i ++ ": match\n"]) ∧
    (csum.take spec.digest_size ≠ (spec.vec i).digest.take spec.digest_size →
      (verdict_events spec i csum).map Event.stdout =
        [spec.name ++ " vector " ++ toString i ++ ": MISMATCH\n"] ++
        ("  want:" :: (List.range spec.digest_size).map
            (fun j => " " ++ fmt_02hhx ((spec.vec i).digest.getD j 0)) ++ ["\n"]) ++
        ("  have:" :: (List.range spec.digest_size).map
            (fun j => " " ++ fmt_02hhx (csum.getD j 0)) ++ ["\n"])) ∧
    ((List.range spec.digest_size).map (fun j => (spec.vec i).digest.getD j 0) =
        (spec.vec i).digest.take spec.digest_size) ∧
    (spec.digest_size ≤ csum.length →
      (List.range spec.digest_size).map (fun j => csum.getD j 0) =
        csum.take spec.digest_size) :=
  ⟨test_hash_loop_vector_segment env spec spec.count 0 false hist i fn p len ret csum hcall
      (not_lt.mpr hret),
    (verdict_events_stdout spec i csum).1, (verdict_events_stdout spec i csum).2,
    range_map_getD_eq_take _ _ hdig, range_map_getD_eq_take _ _⟩

/-- Witness of C12 on vector 1 of the CRC32C-ref entry with a hash function
that leaves zero bytes: the expected digest has digest_size bytes, and the
output is the three lines of the mismatch. -/
theorem test_hash_mismatch_rendering_witness :
    (sample_spec 0).digest_size ≤ ((sample_spec 0).vec 1).digest.length ∧
    (verdict_events (sample_spec 0) 1 (List.replicate 32 0)).map Event.stdout =
      ["CRC32C-ref vector 1: MISMATCH\n",
       "  want:", " 41", " f4", " 27", " e6", "\n",
       "  have:", " 00", " 00", " 00", " 00", "\n"] :=
  ⟨by decide,
   ((test_hash_mismatch_rendering env_zero (sample_spec 0) [] 1 HashFn.hash_crc32c
    (some [0x61, 0x62, 0x63, 0x64, 0x65, 0x66, 0x67]) 7 0 (List.replicate 32 0)
    (by decide) (by decide) (by decide)).2.2.1 (by decide)).trans (by decide)⟩

/-! ## The loop of main -/

theorem main_invocations_specs (env : Env) (specs : List hash_testspec) (hist : List Event) :
    (main_invocations env specs hist).map (fun c => c.1) = specs := by
  induction specs generalizing hist with
  | nil => rfl
  | cons s rest ih => simp [main_invocations, ih]

theorem main_invocations_ret (env : Env) (specs : List hash_testspec) (hist : List Event) :
    ∀ c ∈ main_invocations env specs hist, c.2.2 = (test_hash env c.1 c.2.1).2 := by
  induction specs generalizing hist with
  | nil =>
    intro c hc
    simp [main_invocations] at hc
  | cons s rest ih =>
    intro c hc
    simp only [main_invocations, List.mem_cons] at hc
    rcases hc with rfl | hc
    · rfl
    · exact ih _ c hc

theorem main_loop_eq_flatten (env : Env) (specs : List hash_testspec) (hist : List Event) :
    main_loop env specs hist =
      ((main_invocations env specs hist).map
        (fun c => (test_hash env c.1 c.2.1).1)).flatten := by
  induction specs generalizing hist with
  | nil => rfl
  | cons s rest ih => simp [main_loop, main_invocations, ih]

/-- C15. A hard failure does not abort the run: for every hash behaviour and
detected feature set, the calls of test_hash that main makes are exactly one
per entry of test_spec, on the 15 entries in registration order, whatever the
calls return; the trace of main is the setup followed by the traces of these
calls, and the value each call returns is the value of test_hash, dropped by
main. -/
theorem main_runs_every_spec (cfg : Config) (env : Env) :
    (main_invocations env (test_spec cfg) (main_setup cfg)).map (fun c => c.1) =
      test_spec cfg ∧
    (main_invocations env (test_spec cfg) (main_setup cfg)).length = 15 ∧
    (main cfg env).1 = main_setup cfg ++
      ((main_invocations env (test_spec cfg) (main_setup cfg)).map
        (fun c => (test_hash env c.1 c.2.1).1)).flatten ∧
    (∀ c ∈ main_invocations env (test_spec cfg) (main_setup cfg),
      c.2.2 = (test_hash env c.1 c.2.1).2) := by
  refine ⟨main_invocations_specs env _ _, ?_, ?_, main_invocations_ret env _ _⟩
  · have h := congrArg List.length (main_invocations_specs env (test_spec cfg) (main_setup cfg))
    rw [List.length_map] at h
    rw [h]
    rfl
  · unfold main
    rw [main_loop_eq_flatten]

/-- Witness of C15 with a hash function that always fails: the entries that
dispatch return 1, and all 15 entries are still run. -/
theorem main_runs_every_spec_witness :
    (main_invocations env_fail (test_spec sample_cfg) (main_setup sample_cfg)).map
        (fun c => (c.1.name, c.2.2)) =
      [("CRC32C-ref", 1), ("CRC32C-NI", 0), ("XXHASH", 1), ("SHA256-ref", 1),
       ("SHA256-gcrypt", 0), ("SHA256-sodium", 0), ("SHA256-kcapi", 0), ("SHA256-NI", 0),
       ("BLAKE2-ref", 1), ("BLAKE2-gcrypt", 0), ("BLAKE2-sodium", 0), ("BLAKE2-kcapi", 0),
       ("BLAKE2-SSE2", 0), ("BLAKE2-SSE41", 0), ("BLAKE2-AVX2", 0)] ∧
    (main_invocations env_fail (test_spec sample_cfg) (main_setup sample_cfg)).length = 15 :=
  ⟨by decide, (main_runs_every_spec sample_cfg env_fail).2.1⟩

/-! ## The accelerator selection -/

theorem machine_after_append (m : Machine) (a b : List Event) :
    machine_after m (a ++ b) = machine_after (machine_after m a) b := by
  simp [machine_after]

theorem init_levels_append (m : Machine) (a b : List Event) :
    init_levels m (a ++ b) = init_levels m a ++ init_levels (machine_after m a) b := by
  induction a generalizing m with
  | nil => rfl
  | cons e a ih =>
    cases e <;> simp [init_levels, machine_after, ih]

/-- Events that call no collaborator leave the machine alone and are no calls
of hash_init_accel. -/
theorem machine_after_inert (es : List Event) (h : ∀ e ∈ es, e.call = none) (m : Machine) :
    machine_after m es = m ∧ init_levels m es = [] ∧ es.filterMap Event.call = [] ∧
      hash_calls es = [] := by
  induction es with
  | nil => exact ⟨rfl, rfl, rfl, rfl⟩
  | cons e es ih =>
    have he := h e (List.mem_cons_self _ _)
    have ih2 := ih (fun e2 h2 => h e2 (List.mem_cons_of_mem _ h2))
    cases e <;> first
      | (refine ⟨?_, ?_, ?_, ?_⟩
         · exact ih2.1
         · exact ih2.2.1
         · simpa [Event.call] using ih2.2.2.1
         · simpa [hash_calls] using ih2.2.2.2)
      | (simp [Event.call] at he)

theorem verdict_events_inert (spec : hash_testspec) (i : Nat) (csum : List Nat) :
    ∀ e ∈ verdict_events spec i csum, e.call = none := by
  intro e he
  rcases mem_verdict_events _ _ _ _ he with rfl | rfl | rfl | rfl | rfl | ⟨b, rfl⟩ <;> rfl

/-- The calls of a dispatched iteration up to cpu_reset_level, and what they
do to the machine, on a specification without CPU flag. -/
theorem call_events_plain (env : Env) (spec : hash_testspec) (i : Nat) (header : Bool)
    (hist : List Event) (hflag : spec.cpu_flag = 0) (m : Machine) :
    (call_events env spec i header hist).filterMap Event.call =
        [Call.hash, Call.cpu_reset_level] ∧
      machine_after m (call_events env spec i header hist) = ⟨Level.reset, m.accel⟩ ∧
      init_levels m (call_events env spec i header hist) = [] := by
  unfold call_events dispatch_pre
  cases header <;>
    simp [hflag, Event.call, machine_after, Machine.step, init_levels]

/-- The same on a specification with a CPU flag. -/
theorem call_events_gated (env : Env) (spec : hash_testspec) (i : Nat) (header : Bool)
    (hist : List Event) (hflag : spec.cpu_flag ≠ 0) (m : Machine) :
    (call_events env spec i header hist).filterMap Event.call =
        [Call.cpu_set_level, Call.hash_init_accel, Call.hash, Call.cpu_reset_level] ∧
      machine_after m (call_events env spec i header hist) =
        ⟨Level.reset, Level.active spec.cpu_flag⟩ ∧
      init_levels m (call_events env spec i header hist) = [Level.active spec.cpu_flag] := by
  unfold call_events dispatch_pre
  cases header <;>
    simp [hflag, Event.call, machine_after, Machine.step, init_levels]

/-- What one iteration calls and does to the machine: nothing on the skip
paths, one block of calls on the dispatching paths. -/
theorem test_hash_iter_machine (env : Env) (spec : hash_testspec) (i : Nat) (header : Bool)
    (hist : List Event) (m : Machine) :
    (hash_calls (test_hash_iter env spec i header hist).1 = [] ∧
      (test_hash_iter env spec i header hist).1.filterMap Event.call = [] ∧
      machine_after m (test_hash_iter env spec i header hist).1 = m ∧
      init_levels m (test_hash_iter env spec i header hist).1 = []) ∨
    ((hash_calls (test_hash_iter env spec i header hist).1).length = 1 ∧
      ((spec.cpu_flag = 0 ∧
        (test_hash_iter env spec i header hist).1.filterMap Event.call =
          [Call.hash, Call.cpu_reset_level] ∧
        machine_after m (test_hash_iter env spec i header hist).1 =
          ⟨Level.reset, m.accel⟩ ∧
        init_levels m (test_hash_iter env spec i header hist).1 = []) ∨
       (spec.cpu_flag ≠ 0 ∧
        (test_hash_iter env spec i header hist).1.filterMap Event.call =
          [Call.cpu_set_level, Call.hash_init_accel, Call.hash, Call.cpu_reset_level] ∧
        machine_after m (test_hash_iter env spec i header hist).1 =
          ⟨Level.reset, Level.active spec.cpu_flag⟩ ∧
        init_levels m (test_hash_iter env spec i header hist).1 =
          [Level.active spec.cpu_flag]))) := by
  have htail : ∀ (tail : List Event), (∀ e ∈ tail, e.call = none) →
      (hash_calls (call_events env spec i header hist ++ tail)).length = 1 ∧
      ((spec.cpu_flag = 0 ∧
        (call_events env spec i header hist ++ tail).filterMap Event.call =
          [Call.hash, Call.cpu_reset_level] ∧
        machine_after m (call_events env spec i header hist ++ tail) =
          ⟨Level.reset, m.accel⟩ ∧
        init_levels m (call_events env spec i header hist ++ tail) = []) ∨
       (spec.cpu_flag ≠ 0 ∧
        (call_events env spec i header hist ++ tail).filterMap Event.call =
          [Call.cpu_set_level, Call.hash_init_accel, Call.hash, Call.cpu_reset_level] ∧
        machine_after m (call_events env spec i header hist ++ tail) =
          ⟨Level.reset, Level.active spec.cpu_flag⟩ ∧
        init_levels m (call_events env spec i header hist ++ tail) =
          [Level.active spec.cpu_flag])) := by
    intro tail htail
    have hin := fun m2 => machine_after_inert tail htail m2
    refine ⟨?_, ?_⟩
    · rw [hash_calls_append, hash_calls_call_events, (hin m).2.2.2]
      rfl
    · by_cases hflag : spec.cpu_flag = 0
      · left
        obtain ⟨h1, h2, h3⟩ := call_events_plain env spec i header hist hflag m
        refine ⟨hflag, ?_, ?_, ?_⟩
        · rw [List.filterMap_append, h1, (hin m).2.2.1]
          rfl
        · rw [machine_after_append, h2, (hin _).1]
        · rw [init_levels_append, h3, (hin _).2.1]
          rfl
      · right
        obtain ⟨h1, h2, h3⟩ := call_events_gated env spec i header hist hflag m
        refine ⟨hflag, ?_, ?_, ?_⟩
        · rw [List.filterMap_append, h1, (hin m).2.2.1]
          rfl
        · rw [machine_after_append, h2, (hin _).1]
        · rw [init_levels_append, h3, (hin _).2.1]
          rfl
  rcases test_hash_iter_cases env spec i header hist with h | h | h | h
  · left
    rw [h.2]
    exact ⟨rfl, rfl, rfl, rfl⟩
  · left
    rw [h.2.2]
    exact ⟨rfl, rfl, rfl, rfl⟩
  · right
    rw [h.2.2.2]
    apply htail
    intro e he
    simp only [List.mem_singleton] at he
    rw [he]
    rfl
  · right
    rw [h.2.2.2]
    exact htail _ (verdict_events_inert _ _ _)

/-- On a specification without CPU flag the loop calls, per dispatched vector,
the hash function and cpu_reset_level and nothing else, never calls
hash_init_accel, and leaves the accelerator selection as it found it. -/
theorem test_hash_loop_plain (env : Env) (spec : hash_testspec) (hflag : spec.cpu_flag = 0)
    (n i : Nat) (header : Bool) (hist : List Event) :
    (test_hash_loop env spec n i header hist).1.filterMap Event.call =
        (List.replicate (hash_calls (test_hash_loop env spec n i header hist).1).length
          [Call.hash, Call.cpu_reset_level]).flatten ∧
      ∀ m, (machine_after m (test_hash_loop env spec n i header hist).1).accel = m.accel ∧
        init_levels m (test_hash_loop env spec n i header hist).1 = [] := by
  induction n generalizing i header hist with
  | zero =>
    simp [test_hash_loop, hash_calls, machine_after, init_levels]
  | succ n ih =>
    have hes : (test_hash_iter env spec i header hist).1.filterMap Event.call =
          (List.replicate (hash_calls (test_hash_iter env spec i header hist).1).length
            [Call.hash, Call.cpu_reset_level]).flatten ∧
        ∀ m, (machine_after m (test_hash_iter env spec i header hist).1).accel = m.accel ∧
          init_levels m (test_hash_iter env spec i header hist).1 = [] := by
      constructor
      · rcases test_hash_iter_machine env spec i header hist default with
          ⟨h1, h2, _, _⟩ | ⟨h1, ⟨_, h2, _, _⟩ | ⟨h0, _⟩⟩
        · rw [h1, h2]
          rfl
        · rw [h1, h2]
          rfl
        · exact absurd hflag h0
      · intro m
        rcases test_hash_iter_machine env spec i header hist m with
          ⟨_, _, h3, h4⟩ | ⟨_, ⟨_, _, h3, h4⟩ | ⟨h0, _⟩⟩
        · rw [h3, h4]
          exact ⟨rfl, rfl⟩
        · rw [h3, h4]
          exact ⟨rfl, rfl⟩
        · exact absurd hflag h0
    rcases test_hash_loop_succ env spec n i header hist with ⟨v, _, heq⟩ | ⟨_, heq⟩
    · rw [heq]
      exact hes
    · rw [heq]
      obtain ⟨ih1, ih2⟩ := ih (i + 1) (test_hash_iter env spec i header hist).2.1
        (hist ++ (test_hash_iter env spec i header hist).1)
      refine ⟨?_, ?_⟩
      · show List.filterMap Event.call (_ ++ _) =
          (List.replicate (hash_calls (_ ++ _)).length _).flatten
        rw [List.filterMap_append, hash_calls_append, List.length_append, hes.1, ih1,
          List.replicate_add, List.flatten_append]
      · intro m
        show (machine_after m (_ ++ _)).accel = m.accel ∧ init_levels m (_ ++ _) = []
        rw [machine_after_append, init_levels_append, (ih2 _).1, (hes.2 m).1, (hes.2 m).2,
          (ih2 _).2]
        exact ⟨rfl, rfl⟩

/-- On a specification with a CPU flag the loop calls, per dispatched vector,
cpu_set_level, hash_init_accel, the hash function and cpu_reset_level; every
hash_init_accel runs under the level of the flag; and once a vector has been
dispatched the machine is left at the reset level with the accelerator
selected under the level of the flag. -/
theorem test_hash_loop_gated (env : Env) (spec : hash_testspec) (hflag : spec.cpu_flag ≠ 0)
    (n i : Nat) (header : Bool) (hist : List Event) :
    (test_hash_loop env spec n i header hist).1.filterMap Event.call =
        (List.replicate (hash_calls (test_hash_loop env spec n i header hist).1).length
          [Call.cpu_set_level, Call.hash_init_accel, Call.hash,
            Call.cpu_reset_level]).flatten ∧
      ∀ m, (∀ l ∈ init_levels m (test_hash_loop env spec n i header hist).1,
          l = Level.active spec.cpu_flag) ∧
        (hash_calls (test_hash_loop env spec n i header hist).1 = [] →
          machine_after m (test_hash_loop env spec n i header hist).1 = m) ∧
        (hash_calls (test_hash_loop env spec n i header hist).1 ≠ [] →
          machine_after m (test_hash_loop env spec n i header hist).1 =
            ⟨Level.reset, Level.active spec.cpu_flag⟩) := by
  induction n generalizing i header hist with
  | zero =>
    simp [test_hash_loop, hash_calls, machine_after, init_levels]
  | succ n ih =>
    have hes : (test_hash_iter env spec i header hist).1.filterMap Event.call =
          (List.replicate (hash_calls (test_hash_iter env spec i header hist).1).length
            [Call.cpu_set_level, Call.hash_init_accel, Call.hash,
              Call.cpu_reset_level]).flatten ∧
        ∀ m, (∀ l ∈ init_levels m (test_hash_iter env spec i header hist).1,
            l = Level.active spec.cpu_flag) ∧
          (hash_calls (test_hash_iter env spec i header hist).1 = [] →
            machine_after m (test_hash_iter env spec i header hist).1 = m) ∧
          (hash_calls (test_hash_iter env spec i header hist).1 ≠ [] →
            machine_after m (test_hash_iter env spec i header hist).1 =
              ⟨Level.reset, Level.active spec.cpu_flag⟩) := by
      constructor
      · rcases test_hash_iter_machine env spec i header hist default with
          ⟨h1, h2, _, _⟩ | ⟨h1, ⟨h0, _⟩ | ⟨_, h2, _, _⟩⟩
        · rw [h1, h2]
          rfl
        · exact absurd h0 hflag
        · rw [h1, h2]
          rfl
      · intro m
        rcases test_hash_iter_machine env spec i header hist m with
          ⟨h1, _, h3, h4⟩ | ⟨h1, ⟨h0, _⟩ | ⟨_, _, h3, h4⟩⟩
        · rw [h4]
          exact ⟨by simp, fun _ => h3, fun hne => absurd h1 hne⟩
        · exact absurd h0 hflag
        · rw [h4]
          refine ⟨by simp, fun hnil => ?_, fun _ => h3⟩
          rw [hnil] at h1
          simp at h1
    rcases test_hash_loop_succ env spec n i header hist with ⟨v, _, heq⟩ | ⟨_, heq⟩
    · rw [heq]
      exact hes
    · rw [heq]
      obtain ⟨ih1, ih2⟩ := ih (i + 1) (test_hash_iter env spec i header hist).2.1
        (hist ++ (test_hash_iter env spec i header hist).1)
      refine ⟨?_, ?_⟩
      · show List.filterMap Event.call (_ ++ _) =
          (List.replicate (hash_calls (_ ++ _)).length _).flatten
        rw [List.filterMap_append, hash_calls_append, List.length_append, hes.1, ih1,
          List.replicate_add, List.flatten_append]
      · intro m
        show (∀ l ∈ init_levels m (_ ++ _), l = Level.active spec.cpu_flag) ∧
          (hash_calls (_ ++ _) = [] → machine_after m (_ ++ _) = m) ∧
          (hash_calls (_ ++ _) ≠ [] → machine_after m (_ ++ _) =
            ⟨Level.reset, Level.active spec.cpu_flag⟩)
        rw [machine_after_append, init_levels_append, hash_calls_append]
        obtain ⟨e1, e2, e3⟩ := hes.2 m
        refine ⟨?_, ?_, ?_⟩
        · intro l hl
          rcases List.mem_append.mp hl with hl | hl
          · exact e1 l hl
          · exact (ih2 _).1 l hl
        · intro hnil
          simp only [List.append_eq_nil] at hnil
          rw [e2 hnil.1]
          exact (ih2 m).2.1 hnil.2
        · intro hne
          by_cases hes0 : hash_calls (test_hash_iter env spec i header hist).1 = []
          · rw [e2 hes0]
            apply (ih2 m).2.2
            intro hnil
            apply hne
            rw [hes0, hnil]
            rfl
          · rw [e3 hes0]
            by_cases hr0 : hash_calls (test_hash_loop env spec n (i + 1)
                (test_hash_iter env spec i header hist).2.1
                (hist ++ (test_hash_iter env spec i header hist).1)).1 = []
            · exact (ih2 _).2.1 hr0
            · exact (ih2 _).2.2 hr0

/-- C18. Accelerator selection is not restored: test_hash calls
hash_init_accel only for a specification with non-zero cpu_flag, only between
cpu_set_level(cpu_flag) and the hash call, and always under the level of that
flag, never under the reset level.  On a specification with cpu_flag 0 the
calls are, per dispatched vector, exactly hash and cpu_reset_level, and the
accelerator selection is left unchanged.  After test_hash has dispatched at
least one vector of a specification with a CPU flag the level is reset while
the accelerator selection is the one made under the level of that flag. -/
theorem test_hash_accel_not_restored (env : Env) (spec : hash_testspec)
    (hist : List Event) :
    (∀ m, ∀ l ∈ init_levels m (test_hash env spec hist).1,
      spec.cpu_flag ≠ 0 ∧ l = Level.active spec.cpu_flag) ∧
    (spec.cpu_flag ≠ 0 →
      (test_hash env spec hist).1.filterMap Event.call =
        (List.replicate (hash_calls (test_hash env spec hist).1).length
          [Call.cpu_set_level, Call.hash_init_accel, Call.hash,
            Call.cpu_reset_level]).flatten) ∧
    (spec.cpu_flag = 0 →
      (test_hash env spec hist).1.filterMap Event.call =
        (List.replicate (hash_calls (test_hash env spec hist).1).length
          [Call.hash, Call.cpu_reset_level]).flatten ∧
      ∀ m, (machine_after m (test_hash env spec hist).1).accel = m.accel) ∧
    (spec.cpu_flag ≠ 0 → hash_calls (test_hash env spec hist).1 ≠ [] →
      ∀ m, machine_after m (test_hash env spec hist).1 =
        ⟨Level.reset, Level.active spec.cpu_flag⟩) := by
  unfold test_hash
  refine ⟨?_, ?_, ?_, ?_⟩
  · intro m l hl
    by_cases hflag : spec.cpu_flag = 0
    · rw [((test_hash_loop_plain env spec hflag spec.count 0 false hist).2 m).2] at hl
      simp at hl
    · exact ⟨hflag,
        ((test_hash_loop_gated env spec hflag spec.count 0 false hist).2 m).1 l hl⟩
  · intro hflag
    exact (test_hash_loop_gated env spec hflag spec.count 0 false hist).1
  · intro hflag
    exact ⟨(test_hash_loop_plain env spec hflag spec.count 0 false hist).1,
      fun m => ((test_hash_loop_plain env spec hflag spec.count 0 false hist).2 m).1⟩
  · intro hflag hne m
    exact ((test_hash_loop_gated env spec hflag spec.count 0 false hist).2 m).2.2 hne

/-- Witness of C18 on the CRC32C-NI entry with its CPU feature detected: after
test_hash the level is reset and the accelerator is the one selected under
the SSE4.2 level. -/
theorem test_hash_accel_not_restored_witness :
    machine_after ⟨Level.reset, Level.reset⟩ (test_hash env_zero (sample_spec 1) []).1 =
      ⟨Level.reset, Level.active 8⟩ :=
  (test_hash_accel_not_restored env_zero (sample_spec 1) []).2.2.2 (by decide) (by decide)
    ⟨Level.reset, Level.reset⟩

end HashVectest
